import Mathlib

/-!
Verification development for the rustari2600 emulator (Atari 2600 emulator in Rust).

This file is a shallow embedding of the emulator's core state machines:
the PIA timer (src/arch/pia.rs), the TIA clock/video generator
(src/arch/tia.rs), the 6507 CPU cycle-stepped instruction engine
(src/arch/cpu.rs), the cartridge (src/arch/cartridge.rs) and the
address-decoded bus (src/arch/mod.rs).

Conventions of the embedding:
* Machine integers (u8/u16/usize) are modelled as `Nat`; wherever the Rust
  source wraps (`Wrapping<u8>`, `wrapping_sub`, shifts on `u8`, casts) the
  embedding applies the corresponding explicit `% 256` / `% 65536` / mask.
  `usize` counters (oscillator, scanline, frame counters) can never reach
  2^64 in any run considered here, so they are plain `Nat`.
* A Rust `panic!` / `unimplemented!` / `todo!` / arithmetic underflow of a
  `usize` (debug profile aborts) is modelled as `Option.none`; every partial
  operation returns `Option`.
* Byte stores (128-byte PIA RAM, 256-byte CPU stack page, ROM, framebuffer)
  are modelled as total functions `Nat → Nat` with a pointwise updater.
* Field and function names follow the Rust source names wherever Lean
  permits (`break` is a Lean keyword, so the Break flag is called `brk`).
-/

set_option maxRecDepth 100000
set_option maxHeartbeats 1600000

namespace Rustari

/-- Pointwise update of a functional byte store (models an array write). -/
def upd (f : Nat → Nat) (i v : Nat) : Nat → Nat :=
  fun j => if j = i then v else f j

@[simp] theorem upd_same (f : Nat → Nat) (i v : Nat) : upd f i v i = v := by
  simp [upd]

@[simp] theorem upd_other (f : Nat → Nat) (i v j : Nat) (h : j ≠ i) :
    upd f i v j = f j := by
  simp [upd, h]

/-- Iterate a fallible step function `n` times (abort propagates).
This is the generic "run the clocked state machine for n ticks" runner. -/
def stepRun (f : α → Option α) : Nat → α → Option α
  | 0, a => some a
  | n + 1, a => (f a).bind (stepRun f n)

theorem stepRun_add (f : α → Option α) (m n : Nat) (a : α) :
    stepRun f (m + n) a = (stepRun f m a).bind (stepRun f n) := by
  induction m generalizing a with
  | zero => rw [Nat.zero_add]; rfl
  | succ m ih =>
      rw [show m + 1 + n = (m + n) + 1 from by omega]
      show (f a).bind (stepRun f (m + n)) = ((f a).bind (stepRun f m)).bind (stepRun f n)
      cases h : f a with
      | none => rfl
      | some b =>
          show stepRun f (m + n) b = (stepRun f m b).bind (stepRun f n)
          exact ih b

/-- `stepRun_add` with the tick count split given as an equation, convenient
for rewriting concrete tick counts. -/
theorem stepRun_split (f : α → Option α) (N m n : Nat) (h : N = m + n) (a : α) :
    stepRun f N a = (stepRun f m a).bind (stepRun f n) := by
  subst h; exact stepRun_add f m n a

/-! ## PIA timer peripheral (src/arch/pia.rs) -/

/-- `struct Pia` from src/arch/pia.rs. -/
structure Pia where
  ram : Nat → Nat
  intim : Nat
  intim_interval : Nat
  intim_interval_active : Bool
  intim_counter : Nat
  intim_trigger : Bool

/-- `impl Default for Pia`. -/
def Pia.default : Pia :=
  { ram := fun _ => 0
    intim := 0x0A
    intim_interval := 1024
    intim_interval_active := true
    intim_counter := 1
    intim_trigger := false }

/-- `Pia::cycle` (one CPU-rate tick of the interval timer).
`self.intim_counter -= 1` on a `usize` aborts when the counter is zero,
modelled as `none`; `wrapping_sub(1)` on the u8 down-counter is
`(x + 255) % 256`. -/
def Pia.cycle (p : Pia) : Option Pia :=
  if p.intim_trigger then
    some { p with intim_counter := 1, intim_interval_active := true,
                  intim_trigger := false }
  else
    if p.intim_interval_active then
      if p.intim_counter = 0 then none
      else
        let c := p.intim_counter - 1
        if c = 0 then
          let v := (p.intim + 255) % 256
          if v = 0xFF then
            -- underflow occurred: leave interval mode, counter reloads to 1
            some { p with intim := v, intim_interval_active := false,
                          intim_counter := 1 }
          else
            some { p with intim := v, intim_counter := p.intim_interval }
        else
          some { p with intim_counter := c }
    else
      some { p with intim := (p.intim + 255) % 256 }

/-- `Pia::setup_intim`. -/
def Pia.setup_intim (p : Pia) (intim interval : Nat) : Pia :=
  { p with intim := intim, intim_interval := interval, intim_trigger := true }

/-- `impl BusAccessable for Pia`, `fn write`. -/
def Pia.write (p : Pia) (addr data : Nat) : Option Pia :=
  if 0x0080 ≤ addr ∧ addr ≤ 0x00FF then
    some { p with ram := upd p.ram (addr % 128) data }
  else if addr = 0x0294 then some (p.setup_intim data 1)
  else if addr = 0x0295 then some (p.setup_intim data 8)
  else if addr = 0x0296 then some (p.setup_intim data 64)
  else if addr = 0x0297 then some (p.setup_intim data 1024)
  else none

/-- `impl BusAccessable for Pia`, `fn read`. Reading INTIM (0x0284) has the
side effect of setting `intim_interval_active`; unimplemented registers
abort. -/
def Pia.read (p : Pia) (addr : Nat) : Option (Nat × Pia) :=
  if 0x0080 ≤ addr ∧ addr ≤ 0x00FF then
    some (p.ram (addr % 128), p)
  else if addr = 0x0280 then some (0b11111111, p)
  else if addr = 0x0281 then none
  else if addr = 0x0282 then some (0b00111111, p)
  else if addr = 0x0283 then none
  else if addr = 0x0284 then
    some (p.intim, { p with intim_interval_active := true })
  else none

/-- Iterate `Pia.cycle` (CPU-rate ticks), aborting if any tick aborts. -/
def Pia.run (n : Nat) (p : Pia) : Option Pia := stepRun Pia.cycle n p

/-! ### Single-tick behaviour of the timer, by case -/

theorem Pia.tick_trigger (r : Nat → Nat) (v I c : Nat) (act : Bool) :
    Pia.cycle ⟨r, v, I, act, c, true⟩ = some ⟨r, v, I, true, 1, false⟩ := rfl

theorem Pia.tick_countdown (r : Nat → Nat) (v I c : Nat)
    (h : c ≠ 0) (h' : c - 1 ≠ 0) :
    Pia.cycle ⟨r, v, I, true, c, false⟩ = some ⟨r, v, I, true, c - 1, false⟩ := by
  simp [Pia.cycle, h, h']

theorem Pia.tick_dec (r : Nat → Nat) (v I : Nat)
    (h : (v + 255) % 256 ≠ 0xFF) :
    Pia.cycle ⟨r, v, I, true, 1, false⟩
      = some ⟨r, (v + 255) % 256, I, true, I, false⟩ := by
  simp [Pia.cycle, h]

theorem Pia.tick_underflow (r : Nat → Nat) (I : Nat) :
    Pia.cycle ⟨r, 0, I, true, 1, false⟩ = some ⟨r, 0xFF, I, false, 1, false⟩ := rfl

theorem Pia.tick_free (r : Nat → Nat) (v I c : Nat) :
    Pia.cycle ⟨r, v, I, false, c, false⟩
      = some ⟨r, (v + 255) % 256, I, false, c, false⟩ := rfl

/-- Counting down the phase counter: `n` ticks with `n < c` just decrement
`intim_counter` by `n`. -/
theorem Pia.run_countdown (r : Nat → Nat) (v I : Nat) :
    ∀ n c, n < c →
      stepRun Pia.cycle n ⟨r, v, I, true, c, false⟩
        = some ⟨r, v, I, true, c - n, false⟩ := by
  intro n
  induction n with
  | zero => intro c _; rfl
  | succ n ih =>
      intro c hc
      show (Pia.cycle _).bind (stepRun Pia.cycle n) = _
      rw [Pia.tick_countdown r v I c (by omega) (by omega), Option.some_bind]
      rw [ih (c - 1) (by omega)]
      congr 2
      omega

/-- One full 1024-cycle block starting at phase 1: the down-counter loses 1
and the phase returns to 1 (no underflow case). -/
theorem Pia.run_block (r : Nat → Nat) (v : Nat) (h1 : 1 ≤ v) (h2 : v ≤ 255) :
    stepRun Pia.cycle 1024 ⟨r, v, 1024, true, 1, false⟩
      = some ⟨r, v - 1, 1024, true, 1, false⟩ := by
  have hv : (v + 255) % 256 = v - 1 := by omega
  have hne : (v + 255) % 256 ≠ 0xFF := by omega
  rw [stepRun_split Pia.cycle 1024 1 1023 (by norm_num)]
  have h3 : stepRun Pia.cycle 1 ⟨r, v, 1024, true, 1, false⟩
      = some ⟨r, v - 1, 1024, true, 1024, false⟩ := by
    show (Pia.cycle _).bind (stepRun Pia.cycle 0) = _
    rw [Pia.tick_dec r v 1024 hne]
    simp [stepRun, hv]
  rw [h3, Option.some_bind]
  rw [Pia.run_countdown r (v - 1) 1024 1023 1024 (by omega)]

/-- `k` consecutive 1024-cycle blocks (`k ≤ v ≤ 255`, so no underflow). -/
theorem Pia.run_blocks (k : Nat) : ∀ v, k ≤ v → v ≤ 255 → ∀ r : Nat → Nat,
    stepRun Pia.cycle (1024 * k) ⟨r, v, 1024, true, 1, false⟩
      = some ⟨r, v - k, 1024, true, 1, false⟩ := by
  induction k with
  | zero => intro v _ _ r; rfl
  | succ k ih =>
      intro v h1 h2 r
      rw [stepRun_split Pia.cycle (1024 * (k + 1)) 1024 (1024 * k) (by ring)]
      rw [Pia.run_block r v (by omega) h2, Option.some_bind]
      rw [ih (v - 1) (by omega) (by omega) r]
      congr 2
      omega

/-! ### Claim C6: the 1024-cycle timer scenario -/

/-- Write 0x0A to the 1024-cycle interval register (0x0297) of the power-on
timer state, then run `n` CPU-rate cycles. -/
def c6run (n : Nat) : Option Pia := (Pia.default.write 0x0297 0x0A).bind (Pia.run n)

theorem c6_write : Pia.default.write 0x0297 0x0A
    = some ⟨fun _ => 0, 0x0A, 1024, true, 1, true⟩ := rfl

theorem c6_armed : stepRun Pia.cycle 1 (⟨fun _ => 0, 0x0A, 1024, true, 1, true⟩ : Pia)
    = some ⟨fun _ => 0, 0x0A, 1024, true, 1, false⟩ := rfl

theorem c6_run10241 : stepRun Pia.cycle 10241 (⟨fun _ => 0, 0x0A, 1024, true, 1, true⟩ : Pia)
    = some ⟨fun _ => 0, 0x00, 1024, true, 1, false⟩ := by
  rw [stepRun_split Pia.cycle 10241 1 (1024 * 10) (by norm_num)]
  rw [c6_armed, Option.some_bind]
  rw [Pia.run_blocks 10 10 (by norm_num) (by norm_num)]

theorem c6_run10242 : stepRun Pia.cycle 10242 (⟨fun _ => 0, 0x0A, 1024, true, 1, true⟩ : Pia)
    = some ⟨fun _ => 0, 0xFF, 1024, false, 1, false⟩ := by
  rw [stepRun_split Pia.cycle 10242 10241 1 (by norm_num)]
  rw [c6_run10241, Option.some_bind]
  rfl

/-- C6: after writing 0x0A to the 1024-interval register, the arming tick
consumes the first cycle with no decrement, the first decrement lands exactly
one cycle later, the counter reads 0x00 after 1 + 1024×10 cycles, underflows
to 0xFF on the next cycle entering free-running mode, and then decrements
once per cycle. -/
theorem claim_C6_timer_1024_scenario :
    (c6run 1).map (fun p => (p.intim, p.intim_counter, p.intim_interval_active, p.intim_trigger))
        = some (0x0A, 1, true, false) ∧
    (c6run 2).map Pia.intim = some 0x09 ∧
    (c6run (1 + 1024 * 10)).map (fun p => (p.intim, p.intim_interval_active))
        = some (0x00, true) ∧
    (c6run (1 + 1024 * 10 + 1)).map (fun p => (p.intim, p.intim_interval_active))
        = some (0xFF, false) ∧
    (c6run (1 + 1024 * 10 + 2)).map Pia.intim = some 0xFE := by
  have e1 : c6run 1
      = Pia.run 1 ⟨fun _ => 0, 0x0A, 1024, true, 1, true⟩ := by
    rw [c6run, c6_write, Option.some_bind]
  have en : ∀ n, c6run n = stepRun Pia.cycle n ⟨fun _ => 0, 0x0A, 1024, true, 1, true⟩ := by
    intro n
    rw [c6run, c6_write, Option.some_bind]
    rfl
  refine ⟨?_, ?_, ?_, ?_, ?_⟩
  · rw [en 1, c6_armed]; rfl
  · rw [en 2, stepRun_split Pia.cycle 2 1 1 rfl, c6_armed, Option.some_bind]; rfl
  · rw [en (1 + 1024 * 10),
        show (1 + 1024 * 10 : Nat) = 10241 from by norm_num, c6_run10241]
    rfl
  · rw [en (1 + 1024 * 10 + 1),
        show (1 + 1024 * 10 + 1 : Nat) = 10242 from by norm_num, c6_run10242]
    rfl
  · rw [en (1 + 1024 * 10 + 2),
        show (1 + 1024 * 10 + 2 : Nat) = 10243 from by norm_num,
        stepRun_split Pia.cycle 10243 10242 1 (by norm_num),
        c6_run10242, Option.some_bind]
    rfl

/-! ### Claim C7: reading INTIM (0x0284) -/

/-- A timer in free-running mode (after an underflow): interval 1024 still
configured, `intim_interval_active` false, phase counter 1. -/
def c7free : Pia := ⟨fun _ => 0, 0xF0, 1024, false, 1, false⟩

/-- Read INTIM in state `c7free`, then run `n` CPU-rate cycles and observe
the down-counter. -/
def c7after (n : Nat) : Option Nat :=
  (c7free.read 0x0284).bind fun vp => (Pia.run n vp.2).map Pia.intim

/-- C7 as stated is false: reading INTIM does return the current counter
value, but it does not put the timer into once-per-cycle decrementing; two
cycles after the read the counter has only dropped by one (0xEF, not 0xEE),
because the read merely sets `intim_interval_active` and the configured
1024-cycle interval takes over after the pending phase tick. -/
theorem claim_C7_counterexample :
    (c7free.read 0x0284).map Prod.fst = some 0xF0 ∧
    c7after 2 = some 0xEF ∧ (0xEF : Nat) ≠ 0xEE := by
  refine ⟨rfl, rfl, by norm_num⟩

/-- C7 amended: reading INTIM returns the current counter value and, as a
side effect, sets the interval-active flag (leaving free-running mode); the
next decrement happens when the pending phase counter expires (1 cycle after
a read taken in free-running mode) and subsequent decrements follow the
configured interval, not once per cycle. -/
theorem claim_C7_intim_read_rearms :
    (∀ p : Pia, p.read 0x0284 = some (p.intim, { p with intim_interval_active := true })) ∧
    (c7after 1 = some 0xEF ∧ c7after 2 = some 0xEF ∧ c7after (1 + 1024) = some 0xEE) := by
  refine ⟨fun p => rfl, rfl, rfl, ?_⟩
  have h1 : c7free.read 0x0284 = some (0xF0, ⟨fun _ => 0, 0xF0, 1024, true, 1, false⟩) := rfl
  rw [c7after, h1, Option.some_bind]
  rw [Pia.run, stepRun_split Pia.cycle (1 + 1024) 1 1024 rfl]
  rw [show stepRun Pia.cycle 1 (⟨fun _ => 0, 0xF0, 1024, true, 1, false⟩ : Pia)
        = some ⟨fun _ => 0, 0xEF, 1024, true, 1024, false⟩ from rfl, Option.some_bind]
  rw [stepRun_split Pia.cycle 1024 1023 1 (by norm_num)]
  rw [Pia.run_countdown (fun _ => 0) 0xEF 1024 1023 1024 (by norm_num), Option.some_bind]
  rfl

/-! ### Claim C10: RAM write/read roundtrip through the PIA -/

/-- C10: for a RAM address (0x0080..0x00FF), a write stores into the cell
selected by `addr & 0x7F`, and reading the same address afterwards returns
the written byte and leaves the whole peripheral state unchanged. -/
theorem claim_C10_ram_roundtrip (p : Pia) (a d : Nat)
    (h1 : 0x0080 ≤ a) (h2 : a ≤ 0x00FF) :
    Pia.write p a d = some { p with ram := upd p.ram (a % 128) d } ∧
    Pia.read { p with ram := upd p.ram (a % 128) d } a
      = some (d, { p with ram := upd p.ram (a % 128) d }) := by
  constructor
  · simp [Pia.write, h1, h2]
  · simp [Pia.read, h1, h2]

theorem claim_C10_witness :
    Pia.write Pia.default 0x0085 0x42
      = some { Pia.default with ram := upd Pia.default.ram (0x0085 % 128) 0x42 } ∧
    Pia.read { Pia.default with ram := upd Pia.default.ram (0x0085 % 128) 0x42 } 0x0085
      = some (0x42, { Pia.default with ram := upd Pia.default.ram (0x0085 % 128) 0x42 }) :=
  claim_C10_ram_roundtrip Pia.default 0x0085 0x42 (by norm_num) (by norm_num)

/-! ## TIA clock/video generator (src/arch/tia.rs) -/

/-- `NTSC_COLOR_LUT` from src/arch/tia.rs (128 packed colors). -/
def NTSC_COLOR_LUT : List Nat := [
  0x000000, 0x404040, 0x6C6C6C, 0x909090, 0xB0B0B0, 0xC8C8C8, 0xDCDCDC, 0xECECEC,
  0x444400, 0x646410, 0x848424, 0xA0A034, 0xB8B840, 0xD0D050, 0xE8E85C, 0xFCFC68,
  0x000000, 0x404040, 0x6C6C6C, 0x909090, 0xB0B0B0, 0xC8C8C8, 0xDCDCDC, 0xECECEC,
  0x444400, 0x646410, 0x848424, 0xA0A034, 0xB8B840, 0xD0D050, 0xE8E85C, 0xFCFC68,
  0x000000, 0x404040, 0x6C6C6C, 0x909090, 0xB0B0B0, 0xC8C8C8, 0xDCDCDC, 0xECECEC,
  0x78005C, 0x8C2074, 0xA03C88, 0xB0589C, 0xC070B0, 0xD084C0, 0xDC9CD0, 0xECB0E0,
  0x480078, 0x602090, 0x783CA4, 0x8C58B8, 0xA070CC, 0xB484DC, 0xC49CEC, 0xD4B0FC,
  0x444400, 0x646410, 0x848424, 0xA0A034, 0xB8B840, 0xD0D050, 0xE8E85C, 0xFCFC68,
  0x000000, 0x404040, 0x6C6C6C, 0x909090, 0xB0B0B0, 0xC8C8C8, 0xDCDCDC, 0xECECEC,
  0x444400, 0x646410, 0x848424, 0xA0A034, 0xB8B840, 0xD0D050, 0xE8E85C, 0xFCFC68,
  0x000000, 0x404040, 0x6C6C6C, 0x909090, 0xB0B0B0, 0xC8C8C8, 0xDCDCDC, 0xECECEC,
  0x444400, 0x646410, 0x848424, 0xA0A034, 0xB8B840, 0xD0D050, 0xE8E85C, 0xFCFC68,
  0x000000, 0x404040, 0x6C6C6C, 0x909090, 0xB0B0B0, 0xC8C8C8, 0xDCDCDC, 0xECECEC,
  0x444400, 0x646410, 0x848424, 0xA0A034, 0xB8B840, 0xD0D050, 0xE8E85C, 0xFCFC68,
  0x000000, 0x404040, 0x6C6C6C, 0x909090, 0xB0B0B0, 0xC8C8C8, 0xDCDCDC, 0xECECEC,
  0x444400, 0x646410, 0x848424, 0xA0A034, 0xB8B840, 0xD0D050, 0xE8E85C, 0xFCFC68]

/-- `struct CycleCounter` from src/arch/tia.rs. All fields are `usize`
(div3 is `u8`; it is wrapped back to 0 on reaching 3 so it never overflows). -/
structure CycleCounter where
  osc : Nat
  div3 : Nat
  scanline : Nat
  color_clock : Nat
  frame_cpu_counter : Nat
  frame_counter : Nat

/-- `impl Default for CycleCounter` (all zero). -/
def CycleCounter.default : CycleCounter := ⟨0, 0, 0, 0, 0, 0⟩

/-- `CycleCounter::osc_cycle`. Note that the `frame_counter` increment on
scanline wrap is commented out in the source. -/
def CycleCounter.osc_cycle (c : CycleCounter) : CycleCounter :=
  let c := { c with osc := c.osc + 1 }
  let d := c.div3 + 1
  let c := if d = 3 then { c with div3 := 0 } else { c with div3 := d }
  let cc := c.color_clock + 1
  if cc = 228 then
    let c := { c with scanline := c.scanline + 1, color_clock := 0 }
    if c.scanline = 262 then { c with scanline := 0 } else c
  else
    { c with color_clock := cc }

/-- `CycleCounter::pixel_index`. -/
def CycleCounter.pixel_index (c : CycleCounter) : Nat :=
  c.scanline * 228 + c.color_clock

/-- `struct Tia` from src/arch/tia.rs. -/
structure Tia where
  vsync : Bool
  vsync_trigger : Bool
  vblank : Bool
  wsync : Bool
  colupf : Nat
  colubk : Nat
  ctrlpf : Nat
  pf0 : Nat
  pf1 : Nat
  pf2 : Nat
  cycles : CycleCounter
  framebuffer : Nat → Nat
  fb_color : Nat

/-- `impl Default for Tia`. -/
def Tia.default : Tia :=
  { vsync := false, vsync_trigger := false, vblank := false, wsync := false
    colupf := 0, colubk := 0, ctrlpf := 0, pf0 := 0, pf1 := 0, pf2 := 0
    cycles := CycleCounter.default, framebuffer := fun _ => 0, fb_color := 0 }

/-- `Tia::pf_lut` (playfield bit lookup, non-linear pin ordering).
The source's self-recursion for dots 20..39 (mirror / repeat of the left
half) is unfolded into the equivalent direct lookup; an invalid dot index
panics (`none`). The source computes `(-((dot-19) as isize)+20) as usize`
= `39 - dot` for the reflected half. -/
def Tia.pf_lut (t : Tia) (dot_index : Nat) (r : Bool) : Option Nat :=
  if dot_index = 0 then some (t.pf0 &&& 0b00010000)
  else if dot_index = 1 then some (t.pf0 &&& 0b00100000)
  else if dot_index = 2 then some (t.pf0 &&& 0b01000000)
  else if dot_index = 3 then some (t.pf0 &&& 0b10000000)
  else if dot_index = 4 then some (t.pf1 &&& 0b10000000)
  else if dot_index = 5 then some (t.pf1 &&& 0b01000000)
  else if dot_index = 6 then some (t.pf1 &&& 0b00100000)
  else if dot_index = 7 then some (t.pf1 &&& 0b00010000)
  else if dot_index = 8 then some (t.pf1 &&& 0b00001000)
  else if dot_index = 9 then some (t.pf1 &&& 0b00000100)
  else if dot_index = 10 then some (t.pf1 &&& 0b00000010)
  else if dot_index = 11 then some (t.pf1 &&& 0b00000001)
  else if dot_index = 12 then some (t.pf2 &&& 0b00000001)
  else if dot_index = 13 then some (t.pf2 &&& 0b00000010)
  else if dot_index = 14 then some (t.pf2 &&& 0b00000100)
  else if dot_index = 15 then some (t.pf2 &&& 0b00001000)
  else if dot_index = 16 then some (t.pf2 &&& 0b00010000)
  else if dot_index = 17 then some (t.pf2 &&& 0b00100000)
  else if dot_index = 18 then some (t.pf2 &&& 0b01000000)
  else if dot_index = 19 then some (t.pf2 &&& 0b10000000)
  else if dot_index ≤ 39 then
    if r then t.pf_lut (39 - dot_index) false else t.pf_lut (dot_index - 20) false
  else none
termination_by dot_index
decreasing_by
  · omega
  · omega

/-- `Tia::color_lut`: pick playfield or background color, map through the
NTSC table. The index `colu / 2` can exceed the 128-entry table only for
out-of-range register values (a panic, `none`). -/
def Tia.color_lut (t : Tia) (reg : Nat) : Option Nat :=
  let colu := if reg ≠ 0 then t.colupf else t.colubk
  NTSC_COLOR_LUT.get? (colu / 2)

/-- `impl BusAccessable for Tia`, `fn write`. Address 0x03 is
`unimplemented!`; all addresses not explicitly handled fall to the silent
catch-all. -/
def Tia.write (t : Tia) (addr data : Nat) : Option Tia :=
  if addr = 0x00 then
    let past := t.vsync
    let v := data &&& 0b00000010 ≠ 0
    let t := { t with vsync := v }
    if !past && v then some { t with vsync_trigger := true } else some t
  else if addr = 0x01 then some { t with vblank := data &&& 0b11000010 ≠ 0 }
  else if addr = 0x02 then some { t with wsync := true }
  else if addr = 0x03 then none
  else if addr = 0x08 then some { t with colupf := data &&& 0b11111110 }
  else if addr = 0x09 then some { t with colubk := data &&& 0b11111110 }
  else if addr = 0x0A then some { t with ctrlpf := data &&& 0b00110111 }
  else if addr = 0x0D then some { t with pf0 := data &&& 0b11110000 }
  else if addr = 0x0E then some { t with pf1 := data }
  else if addr = 0x0F then some { t with pf2 := data }
  else some t

/-- `impl BusAccessable for Tia`, `fn read`. Registers 0x30, 0x31 and
0x38..0x3B are `unimplemented!`; the catch-all returns 0. The `Tia` state
is not inspected (player-input registers return fixed values). -/
def Tia.read (_t : Tia) (addr : Nat) : Option Nat :=
  if addr = 0x30 then none
  else if addr = 0x31 then none
  else if addr = 0x32 then some 0
  else if addr = 0x33 then some 0
  else if addr = 0x34 then some 0
  else if addr = 0x35 then some 0
  else if addr = 0x36 then some 0
  else if addr = 0x37 then some 0
  else if addr = 0x38 then none
  else if addr = 0x39 then none
  else if addr = 0x3A then none
  else if addr = 0x3B then none
  else if addr = 0x3C then some 0b10000000
  else if addr = 0x3D then some 0b10000000
  else some 0

/-! ## Cartridge (src/arch/cartridge.rs) -/

/-- `struct Cartridge`: a ROM byte store addressed through the low 12 bits. -/
structure Cartridge where
  rom : Nat → Nat

/-- `impl Default for Cartridge`: 4 KiB of zeroes. -/
def Cartridge.default : Cartridge := ⟨fun _ => 0⟩

/-- `Cartridge::read`. -/
def Cartridge.read (c : Cartridge) (addr : Nat) : Nat :=
  c.rom (addr % 4096)

/-- `Cartridge::write` is `todo!()` (a panic). -/
def Cartridge.write (_ : Cartridge) (_ _ : Nat) : Option Cartridge := none

/-! ## CPU (src/arch/cpu.rs)

Integer-overflow conventions: the Rust source runs with debug-profile
overflow checks, so an overflowing `+=` / `-=` / `as i16` addition aborts;
the embedding returns `none` there. Explicit `Wrapping`/`wrapping_*`
operations and `as u8`/`as u16` casts wrap and are modelled with `% 256` /
`% 65536` / bit masks. -/

/-- `StatusReg` bitflags, one `Bool` per flag (`Break` is `brk`; `break` is
a Lean keyword). Default is `Unused | Break`. -/
structure StatusReg where
  negative : Bool
  overflow : Bool
  unused : Bool
  brk : Bool
  decimal : Bool
  interrupt_disable : Bool
  zero : Bool
  carry : Bool

def StatusReg.default : StatusReg :=
  { negative := false, overflow := false, unused := true, brk := true
    decimal := false, interrupt_disable := false, zero := false, carry := false }

/-- The `status.set(Zero, v == 0); status.set(Negative, v & 0x80 > 0)`
pattern that every load/arithmetic instruction applies to its result byte. -/
def StatusReg.setZN (s : StatusReg) (v : Nat) : StatusReg :=
  { s with zero := decide (v = 0), negative := decide (v &&& 0x80 > 0) }

/-- `enum AddrMode`. -/
inductive AddrMode where
  | Accumulator | Absolute | AbsoluteX | AbsoluteY | Immediate | Implied
  | Indirect | IndirectX | IndirectY | Relative | Zero | ZeroX | ZeroY | Auto
deriving DecidableEq

/-- The instruction semantic functions (the `fn` items of src/arch/cpu.rs);
`InstructionProcedure.func` stores one of these. -/
inductive Instr where
  | adc | anc | and | ane | arr | asl | asr | bcc | bcs | beq | bit | bmi
  | bne | bpl | brk | bvc | bvs | clc | cld | cli | clv | cmp | cpx | cpy
  | dcp | dec | dex | dey | eor | inc | inx | iny | isb | jmp | jsr | las
  | lax | lda | ldx | ldy | lsr | lxa | nop | ora | pha | php | pla | plp
  | rla | rol | ror | rra | rti | rts | sax | sbc | sbx | sec | sed | sei
  | sha | shs | shx | shy | slo | sre | sta | stx | sty | tax | tay | tsx
  | txa | txs | tya
deriving DecidableEq

/-- `struct InstructionProcedure` (in-flight instruction state). `cycle` is
a `u8` starting at 1. -/
structure InstructionProcedure where
  done : Bool
  func : Instr
  mode : AddrMode
  cycle : Nat
  tmp0 : Nat
  tmp1 : Nat
  tmp_addr : Nat

/-- `InstructionProcedure::new`. -/
def InstructionProcedure.new (f : Instr) (m : AddrMode) : InstructionProcedure :=
  { done := false, func := f, mode := m, cycle := 1, tmp0 := 0, tmp1 := 0, tmp_addr := 0 }

/-- `struct Cpu`. `sp` is `Wrapping<u8>`; `stack` is the 256-byte page. -/
structure Cpu where
  pc : Nat
  sp : Nat
  status : StatusReg
  acc : Nat
  x : Nat
  y : Nat
  rdy : Bool
  stack : Nat → Nat
  prefetch : Option Nat
  fetch_needed : Bool
  cycles_to_wait : Nat
  procedure : Option InstructionProcedure
  counter : Nat

/-- `impl Default for Cpu`. -/
def Cpu.default : Cpu :=
  { pc := 0, sp := 0, status := StatusReg.default, acc := 0, x := 0, y := 0
    rdy := true, stack := fun _ => 0, prefetch := none, fetch_needed := false
    cycles_to_wait := 0, procedure := none, counter := 1 }

/-- `impl BusAccessable for Cpu`, `fn read` (memory-mapped stack page). -/
def Cpu.read (c : Cpu) (addr : Nat) : Option Nat :=
  if 0x0100 ≤ addr ∧ addr ≤ 0x01FF then some (c.stack (addr % 256)) else none

/-- `impl BusAccessable for Cpu`, `fn write`. -/
def Cpu.write (c : Cpu) (addr data : Nat) : Option Cpu :=
  if 0x0100 ≤ addr ∧ addr ≤ 0x01FF then
    some { c with stack := upd c.stack (addr % 256) data }
  else none

/-! ## Bus (src/arch/mod.rs) -/

/-- `struct Bus`: the single shared machine state. -/
structure Bus where
  tia : Tia
  cpu : Cpu
  pia : Pia
  cart : Cartridge

/-- `impl Default for Bus`. -/
def Bus.default : Bus :=
  { tia := Tia.default, cpu := Cpu.default, pia := Pia.default, cart := Cartridge.default }

/-- `impl BusAccessable for Bus`, `fn write` (address-decoded dispatch;
an unmapped address panics). -/
def Bus.write (b : Bus) (addr data : Nat) : Option Bus :=
  if addr ≤ 0x002C then
    (b.tia.write addr data).map fun t => { b with tia := t }
  else if (0x0080 ≤ addr ∧ addr ≤ 0x00FF) ∨ (0x0280 ≤ addr ∧ addr ≤ 0x0297) then
    (b.pia.write addr data).map fun p => { b with pia := p }
  else if 0x0100 ≤ addr ∧ addr ≤ 0x01FF then
    (b.cpu.write addr data).map fun c => { b with cpu := c }
  else if 0xF000 ≤ addr ∧ addr ≤ 0xFFFF then
    (b.cart.write addr data).map fun c => { b with cart := c }
  else none

/-- `impl BusAccessable for Bus`, `fn read`. Reading can mutate state (the
PIA's INTIM read side effect), so the possibly-updated bus is returned. -/
def Bus.read (b : Bus) (addr : Nat) : Option (Nat × Bus) :=
  if addr ≤ 0x000D ∨ (0x0030 ≤ addr ∧ addr ≤ 0x003D) then
    (b.tia.read addr).map fun v => (v, b)
  else if (0x0080 ≤ addr ∧ addr ≤ 0x00FF) ∨ (0x0280 ≤ addr ∧ addr ≤ 0x0297) then
    (b.pia.read addr).map fun vp => (vp.1, { b with pia := vp.2 })
  else if 0x0100 ≤ addr ∧ addr ≤ 0x01FF then
    (b.cpu.read addr).map fun v => (v, b)
  else if 0xF000 ≤ addr ∧ addr ≤ 0xFFFF then
    some (b.cart.read addr, b)
  else none

/-! ### CPU micro-operations. The Rust instruction functions mutate the
aliased `cpu`/`bus` pair; here they transform the whole `Bus` (which owns
the CPU), returning `none` on panic. -/

/-- `Cpu::fetch`: read the byte at PC, then `pc += 1` (aborts on u16
overflow in the debug profile). -/
def fetch (b : Bus) : Option (Nat × Bus) :=
  (b.read b.cpu.pc).bind fun vb =>
    if vb.2.cpu.pc + 1 ≥ 65536 then none
    else some (vb.1, { vb.2 with cpu := { vb.2.cpu with pc := vb.2.cpu.pc + 1 } })

/-- `Cpu::stack_push`: write at `0x100 + sp`, then `sp -= 1` (wrapping). -/
def stack_push (b : Bus) (data : Nat) : Option Bus :=
  (b.write (0x100 + b.cpu.sp) data).map fun b' =>
    { b' with cpu := { b'.cpu with sp := (b'.cpu.sp + 255) % 256 } }

/-- `Cpu::stack_pop`: `sp += 1` (wrapping), then read at `0x100 + sp`. -/
def stack_pop (b : Bus) : Option (Nat × Bus) :=
  let b := { b with cpu := { b.cpu with sp := (b.cpu.sp + 1) % 256 } }
  b.read (0x100 + b.cpu.sp)

/-- `fn addr_concat`: `((high as u16) << 8) | low`; both operands are u8,
so the bitwise-or of disjoint bit ranges is addition. -/
def addr_concat (high low : Nat) : Nat := high * 256 + low

/-- The `cpu.prefetch = Some(cpu.fetch(bus)); procedure.done = true;` tail
shared by the final cycle of (almost) every instruction. -/
def finish (p : InstructionProcedure) (b : Bus) : Option (InstructionProcedure × Bus) :=
  (fetch b).map fun vb =>
    ({ p with done := true }, { vb.2 with cpu := { vb.2.cpu with prefetch := some vb.1 } })

/-- `fn effective_addr`: per-cycle address computation for
Immediate/Zero/Absolute/ZeroX/ZeroY operands. Returns `some (some a, ..)`
when the effective address is ready, `some (none, ..)` while still working,
`none` for a panic (unsupported mode). Note: in the ZeroX/ZeroY arm the
source's cycle-3 discarded bus read exists only as a comment, so cycle 3
falls through to the catch-all and performs no bus access. -/
def effective_addr (p : InstructionProcedure) (b : Bus) :
    Option (Option Nat × InstructionProcedure × Bus) :=
  match p.mode with
  | .Immediate =>
      if p.cycle = 2 then
        let pc := b.cpu.pc
        if pc + 1 ≥ 65536 then none
        else some (some pc, p, { b with cpu := { b.cpu with pc := pc + 1 } })
      else some (none, p, b)
  | .Zero =>
      if p.cycle = 2 then
        (fetch b).map fun vb => (none, { p with tmp0 := vb.1 }, vb.2)
      else if p.cycle = 3 then
        some (some (addr_concat 0x00 p.tmp0), p, b)
      else some (none, p, b)
  | .Absolute =>
      if p.cycle = 2 then
        (fetch b).map fun vb => (none, { p with tmp0 := vb.1 }, vb.2)
      else if p.cycle = 3 then
        (fetch b).map fun vb => (none, { p with tmp1 := vb.1 }, vb.2)
      else if p.cycle = 4 then
        some (some (addr_concat p.tmp1 p.tmp0), p, b)
      else some (none, p, b)
  | .ZeroX | .ZeroY =>
      if p.cycle = 2 then
        (fetch b).map fun vb => (none, { p with tmp0 := vb.1 }, vb.2)
      else if p.cycle = 4 then
        if p.mode = .ZeroX then
          some (some ((p.tmp0 + b.cpu.x) % 256), p, b)
        else
          some (some ((p.tmp0 + b.cpu.y) % 256), p, b)
      else some (none, p, b)
  | _ => none

/-- `fn read_modify_write`: per-cycle address/operand handling for RMW
instructions (Zero, Absolute, ZeroX, AbsoluteX), including the discarded
cycle-3 read in the ZeroX arm and the dummy write-back of the unmodified
operand. -/
def read_modify_write (p : InstructionProcedure) (b : Bus) :
    Option (Option Nat × InstructionProcedure × Bus) :=
  match p.mode with
  | .Zero =>
      if p.cycle = 2 then
        (fetch b).map fun vb =>
          (none, { p with tmp_addr := addr_concat 0x00 vb.1 }, vb.2)
      else if p.cycle = 3 then
        (b.read p.tmp_addr).map fun vb => (none, { p with tmp0 := vb.1 }, vb.2)
      else if p.cycle = 4 then
        (b.write p.tmp_addr p.tmp0).map fun b' => (none, p, b')
      else if p.cycle = 5 then some (some p.tmp_addr, p, b)
      else some (none, p, b)
  | .Absolute =>
      if p.cycle = 2 then
        (fetch b).map fun vb => (none, { p with tmp0 := vb.1 }, vb.2)
      else if p.cycle = 3 then
        (fetch b).map fun vb => (none, { p with tmp1 := vb.1 }, vb.2)
      else if p.cycle = 4 then
        let p := { p with tmp_addr := addr_concat p.tmp1 p.tmp0 }
        (b.read p.tmp_addr).map fun vb => (none, { p with tmp0 := vb.1 }, vb.2)
      else if p.cycle = 5 then
        (b.write p.tmp_addr p.tmp0).map fun b' => (none, p, b')
      else if p.cycle = 6 then some (some p.tmp_addr, p, b)
      else some (none, p, b)
  | .ZeroX =>
      if p.cycle = 2 then
        (fetch b).map fun vb =>
          (none, { p with tmp0 := vb.1, tmp_addr := addr_concat 0x00 vb.1 }, vb.2)
      else if p.cycle = 3 then
        (b.read p.tmp_addr).map fun vb => (none, p, vb.2)
      else if p.cycle = 4 then
        let p := { p with tmp_addr := (p.tmp0 + b.cpu.x) % 256 }
        (b.read p.tmp_addr).map fun vb => (none, { p with tmp0 := vb.1 }, vb.2)
      else if p.cycle = 5 then
        (b.write p.tmp_addr p.tmp0).map fun b' => (none, p, b')
      else if p.cycle = 6 then some (some p.tmp_addr, p, b)
      else some (none, p, b)
  | .AbsoluteX =>
      if p.cycle = 2 then
        (fetch b).map fun vb => (none, { p with tmp0 := vb.1 }, vb.2)
      else if p.cycle = 3 then
        (fetch b).map fun vb => (none, { p with tmp1 := vb.1 }, vb.2)
      else if p.cycle = 4 then
        if addr_concat p.tmp1 p.tmp0 + b.cpu.x ≥ 65536 then none
        else
          let p := { p with tmp_addr := addr_concat p.tmp1 p.tmp0 + b.cpu.x }
          (b.read p.tmp_addr).map fun vb => (none, p, vb.2)
      else if p.cycle = 5 then
        (b.read p.tmp_addr).map fun vb => (none, { p with tmp0 := vb.1 }, vb.2)
      else if p.cycle = 6 then some (some p.tmp_addr, p, b)
      else some (none, p, b)
  | _ => none

/-- `fn branch`: shared body of all eight conditional branches. The
cycle-3 target computation `(cpu.pc as i16 + tmp0 as i8 as i16) as u16`
sign-extends the displacement and aborts on i16 overflow (debug profile);
the final `as u16` is a two's-complement reinterpretation. -/
def branch (p : InstructionProcedure) (b : Bus) (to_branch : Bool) :
    Option (InstructionProcedure × Bus) :=
  if p.cycle = 2 then
    (fetch b).bind fun vb =>
      let p := { p with tmp0 := vb.1 }
      if !to_branch then finish p vb.2
      else some (p, vb.2)
  else if p.cycle = 3 then
    let disp : Int := if p.tmp0 < 0x80 then (p.tmp0 : Int) else (p.tmp0 : Int) - 256
    let pcs : Int := if b.cpu.pc < 0x8000 then (b.cpu.pc : Int) else (b.cpu.pc : Int) - 65536
    let sum := pcs + disp
    if sum < -32768 ∨ 32767 < sum then none
    else
      let target := (if sum < 0 then sum + 65536 else sum).toNat
      let p := { p with tmp_addr := target }
      if b.cpu.pc &&& 0xFF00 = target &&& 0xFF00 then
        finish p { b with cpu := { b.cpu with pc := target } }
      else some (p, b)
  else if p.cycle = 4 then
    finish p { b with cpu := { b.cpu with pc := p.tmp_addr } }
  else some (p, b)

/-! ### Instruction semantic functions (only those implemented in the
source; every `unimplemented!()` function maps to `none` in `runInstr`). -/

/-- `fn asl` (arithmetic shift left; accumulator or RMW form). -/
def asl (p : InstructionProcedure) (b : Bus) : Option (InstructionProcedure × Bus) :=
  match p.mode with
  | .Accumulator =>
      if p.cycle = 2 then
        let c := b.cpu
        let st := { c.status with carry := decide (c.acc &&& 0x80 ≠ 0) }
        let acc := (c.acc <<< 1) % 256
        let st := st.setZN acc
        finish p { b with cpu := { c with acc := acc, status := st } }
      else some (p, b)
  | _ =>
      (read_modify_write p b).bind fun apb =>
        match apb.1 with
        | none => some (apb.2.1, apb.2.2)
        | some addr =>
            let p := apb.2.1
            let b := apb.2.2
            let st := { b.cpu.status with carry := decide (p.tmp0 &&& 0x80 ≠ 0) }
            let v := (p.tmp0 <<< 1) % 256
            let p := { p with tmp0 := v }
            let st := st.setZN v
            let b := { b with cpu := { b.cpu with status := st } }
            (b.write addr v).map fun b' => ({ p with done := true }, b')

/-- `fn lsr` (logical shift right). -/
def lsr (p : InstructionProcedure) (b : Bus) : Option (InstructionProcedure × Bus) :=
  match p.mode with
  | .Accumulator =>
      if p.cycle = 2 then
        let c := b.cpu
        let st := { c.status with carry := decide (c.acc &&& 0x01 ≠ 0) }
        let acc := c.acc >>> 1
        let st := st.setZN acc
        finish p { b with cpu := { c with acc := acc, status := st } }
      else some (p, b)
  | _ =>
      (read_modify_write p b).bind fun apb =>
        match apb.1 with
        | none => some (apb.2.1, apb.2.2)
        | some addr =>
            let p := apb.2.1
            let b := apb.2.2
            let st := { b.cpu.status with carry := decide (p.tmp0 &&& 0x01 ≠ 0) }
            let v := p.tmp0 >>> 1
            let p := { p with tmp0 := v }
            let st := st.setZN v
            let b := { b with cpu := { b.cpu with status := st } }
            (b.write addr v).map fun b' => ({ p with done := true }, b')

/-- `fn rol` (rotate left through carry). -/
def rol (p : InstructionProcedure) (b : Bus) : Option (InstructionProcedure × Bus) :=
  match p.mode with
  | .Accumulator =>
      if p.cycle = 2 then
        let c := b.cpu
        let cin := if c.status.carry then 1 else 0
        let st := { c.status with carry := decide (c.acc &&& 0x80 ≠ 0) }
        let acc := (((c.acc <<< 1) % 256) &&& 0xFE) ||| cin
        let st := st.setZN acc
        finish p { b with cpu := { c with acc := acc, status := st } }
      else some (p, b)
  | _ =>
      (read_modify_write p b).bind fun apb =>
        match apb.1 with
        | none => some (apb.2.1, apb.2.2)
        | some addr =>
            let p := apb.2.1
            let b := apb.2.2
            let cin := if b.cpu.status.carry then 1 else 0
            let st := { b.cpu.status with carry := decide (p.tmp0 &&& 0x80 ≠ 0) }
            let v := (((p.tmp0 <<< 1) % 256) &&& 0xFE) ||| cin
            let p := { p with tmp0 := v }
            let st := st.setZN v
            let b := { b with cpu := { b.cpu with status := st } }
            (b.write addr v).map fun b' => ({ p with done := true }, b')

/-- `fn ror` (rotate right through carry). -/
def ror (p : InstructionProcedure) (b : Bus) : Option (InstructionProcedure × Bus) :=
  match p.mode with
  | .Accumulator =>
      if p.cycle = 2 then
        let c := b.cpu
        let cin := if c.status.carry then 1 else 0
        let st := { c.status with carry := decide (c.acc &&& 0x01 ≠ 0) }
        let acc := (cin <<< 7) ||| ((c.acc >>> 1) &&& 0x7F)
        let st := st.setZN acc
        finish p { b with cpu := { c with acc := acc, status := st } }
      else some (p, b)
  | _ =>
      (read_modify_write p b).bind fun apb =>
        match apb.1 with
        | none => some (apb.2.1, apb.2.2)
        | some addr =>
            let p := apb.2.1
            let b := apb.2.2
            let cin := if b.cpu.status.carry then 1 else 0
            let st := { b.cpu.status with carry := decide (p.tmp0 &&& 0x01 ≠ 0) }
            let v := (cin <<< 7) ||| ((p.tmp0 >>> 1) &&& 0x7F)
            let p := { p with tmp0 := v }
            let st := st.setZN v
            let b := { b with cpu := { b.cpu with status := st } }
            (b.write addr v).map fun b' => ({ p with done := true }, b')

/-- `fn bcc`/`bcs`/`beq`/`bmi`/`bne`/`bpl`/`bvc`/`bvs`: thin wrappers
around `branch` testing a status flag. -/
def bcc (p : InstructionProcedure) (b : Bus) : Option (InstructionProcedure × Bus) :=
  branch p b (!b.cpu.status.carry)

def bcs (p : InstructionProcedure) (b : Bus) : Option (InstructionProcedure × Bus) :=
  branch p b b.cpu.status.carry

def beq (p : InstructionProcedure) (b : Bus) : Option (InstructionProcedure × Bus) :=
  branch p b b.cpu.status.zero

def bmi (p : InstructionProcedure) (b : Bus) : Option (InstructionProcedure × Bus) :=
  branch p b b.cpu.status.negative

def bne (p : InstructionProcedure) (b : Bus) : Option (InstructionProcedure × Bus) :=
  branch p b (!b.cpu.status.zero)

def bpl (p : InstructionProcedure) (b : Bus) : Option (InstructionProcedure × Bus) :=
  branch p b (!b.cpu.status.negative)

def bvc (p : InstructionProcedure) (b : Bus) : Option (InstructionProcedure × Bus) :=
  branch p b (!b.cpu.status.overflow)

def bvs (p : InstructionProcedure) (b : Bus) : Option (InstructionProcedure × Bus) :=
  branch p b b.cpu.status.overflow

/-- `fn cld` (clear decimal flag). -/
def cld (p : InstructionProcedure) (b : Bus) : Option (InstructionProcedure × Bus) :=
  if p.cycle = 2 then
    finish p { b with cpu := { b.cpu with status := { b.cpu.status with decimal := false } } }
  else some (p, b)

/-- `fn sec` (set carry). -/
def sec (p : InstructionProcedure) (b : Bus) : Option (InstructionProcedure × Bus) :=
  if p.cycle = 2 then
    finish p { b with cpu := { b.cpu with status := { b.cpu.status with carry := true } } }
  else some (p, b)

/-- `fn sed` (set decimal). -/
def sed (p : InstructionProcedure) (b : Bus) : Option (InstructionProcedure × Bus) :=
  if p.cycle = 2 then
    finish p { b with cpu := { b.cpu with status := { b.cpu.status with decimal := true } } }
  else some (p, b)

/-- `fn sei` (set interrupt-disable). -/
def sei (p : InstructionProcedure) (b : Bus) : Option (InstructionProcedure × Bus) :=
  if p.cycle = 2 then
    finish p { b with cpu := { b.cpu with status := { b.cpu.status with interrupt_disable := true } } }
  else some (p, b)

/-- `fn dex` (`x.wrapping_sub(1)`, set Z/N). -/
def dex (p : InstructionProcedure) (b : Bus) : Option (InstructionProcedure × Bus) :=
  if p.cycle = 2 then
    let c := b.cpu
    let x := (c.x + 255) % 256
    finish p { b with cpu := { c with x := x, status := c.status.setZN x } }
  else some (p, b)

/-- `fn dey`. -/
def dey (p : InstructionProcedure) (b : Bus) : Option (InstructionProcedure × Bus) :=
  if p.cycle = 2 then
    let c := b.cpu
    let y := (c.y + 255) % 256
    finish p { b with cpu := { c with y := y, status := c.status.setZN y } }
  else some (p, b)

/-- `fn inx` (`x.wrapping_add(1)`, set Z/N). -/
def inx (p : InstructionProcedure) (b : Bus) : Option (InstructionProcedure × Bus) :=
  if p.cycle = 2 then
    let c := b.cpu
    let x := (c.x + 1) % 256
    finish p { b with cpu := { c with x := x, status := c.status.setZN x } }
  else some (p, b)

/-- `fn iny`. -/
def iny (p : InstructionProcedure) (b : Bus) : Option (InstructionProcedure × Bus) :=
  if p.cycle = 2 then
    let c := b.cpu
    let y := (c.y + 1) % 256
    finish p { b with cpu := { c with y := y, status := c.status.setZN y } }
  else some (p, b)

/-- `fn eor` (`acc ^= mem`, set Z/N). -/
def eor (p : InstructionProcedure) (b : Bus) : Option (InstructionProcedure × Bus) :=
  (effective_addr p b).bind fun apb =>
    match apb.1 with
    | none => some (apb.2.1, apb.2.2)
    | some addr =>
        let p := apb.2.1
        (apb.2.2.read addr).bind fun vb =>
          let c := vb.2.cpu
          let acc := c.acc ^^^ vb.1
          finish p { vb.2 with cpu := { c with acc := acc, status := c.status.setZN acc } }

/-- `fn lda`. -/
def lda (p : InstructionProcedure) (b : Bus) : Option (InstructionProcedure × Bus) :=
  (effective_addr p b).bind fun apb =>
    match apb.1 with
    | none => some (apb.2.1, apb.2.2)
    | some addr =>
        let p := apb.2.1
        (apb.2.2.read addr).bind fun vb =>
          let c := vb.2.cpu
          finish p { vb.2 with cpu := { c with acc := vb.1, status := c.status.setZN vb.1 } }

/-- `fn ldx`. -/
def ldx (p : InstructionProcedure) (b : Bus) : Option (InstructionProcedure × Bus) :=
  (effective_addr p b).bind fun apb =>
    match apb.1 with
    | none => some (apb.2.1, apb.2.2)
    | some addr =>
        let p := apb.2.1
        (apb.2.2.read addr).bind fun vb =>
          let c := vb.2.cpu
          finish p { vb.2 with cpu := { c with x := vb.1, status := c.status.setZN vb.1 } }

/-- `fn ldy`. -/
def ldy (p : InstructionProcedure) (b : Bus) : Option (InstructionProcedure × Bus) :=
  (effective_addr p b).bind fun apb =>
    match apb.1 with
    | none => some (apb.2.1, apb.2.2)
    | some addr =>
        let p := apb.2.1
        (apb.2.2.read addr).bind fun vb =>
          let c := vb.2.cpu
          finish p { vb.2 with cpu := { c with y := vb.1, status := c.status.setZN vb.1 } }

/-- `fn sbc` (binary mode; decimal mode is `unimplemented!`). The 16-bit
wrapping subtraction keeps the borrow in bit 8 for the carry flag; Zero is
computed from the full 16-bit result as in the source. -/
def sbc (p : InstructionProcedure) (b : Bus) : Option (InstructionProcedure × Bus) :=
  (effective_addr p b).bind fun apb =>
    match apb.1 with
    | none => some (apb.2.1, apb.2.2)
    | some addr =>
        let p := apb.2.1
        (apb.2.2.read addr).bind fun vb =>
          let c := vb.2.cpu
          let data := vb.1
          let borrow := if c.status.carry then 0 else 1
          let result := (c.acc + 65536 - data % 65536 + 65536 - borrow) % 65536
          let st := { c.status with
            carry := decide (result &&& 0x100 = 0)
            overflow := decide ((c.acc ^^^ data) &&& (c.acc ^^^ result % 256) &&& 0x80 ≠ 0)
            zero := decide (result = 0)
            negative := decide (result &&& 0x80 > 0) }
          if st.decimal then none
          else
            finish p { vb.2 with cpu := { c with acc := result % 256, status := st } }

/-- `fn sta`. -/
def sta (p : InstructionProcedure) (b : Bus) : Option (InstructionProcedure × Bus) :=
  (effective_addr p b).bind fun apb =>
    match apb.1 with
    | none => some (apb.2.1, apb.2.2)
    | some addr =>
        (apb.2.2.write addr apb.2.2.cpu.acc).map fun b' =>
          ({ apb.2.1 with done := true }, b')

/-- `fn stx`. -/
def stx (p : InstructionProcedure) (b : Bus) : Option (InstructionProcedure × Bus) :=
  (effective_addr p b).bind fun apb =>
    match apb.1 with
    | none => some (apb.2.1, apb.2.2)
    | some addr =>
        (apb.2.2.write addr apb.2.2.cpu.x).map fun b' =>
          ({ apb.2.1 with done := true }, b')

/-- `fn sty`. -/
def sty (p : InstructionProcedure) (b : Bus) : Option (InstructionProcedure × Bus) :=
  (effective_addr p b).bind fun apb =>
    match apb.1 with
    | none => some (apb.2.1, apb.2.2)
    | some addr =>
        (apb.2.2.write addr apb.2.2.cpu.y).map fun b' =>
          ({ apb.2.1 with done := true }, b')

/-- `fn jmp` (absolute and indirect forms). The indirect form reads the
pointer high byte from `tmp_addr + 1` with no page wrap. -/
def jmp (p : InstructionProcedure) (b : Bus) : Option (InstructionProcedure × Bus) :=
  match p.mode with
  | .Absolute =>
      if p.cycle = 2 then
        (fetch b).map fun vb => ({ p with tmp0 := vb.1 }, vb.2)
      else if p.cycle = 3 then
        (b.read b.cpu.pc).bind fun vb =>
          let pch := vb.1
          finish p { vb.2 with cpu := { vb.2.cpu with pc := pch * 256 + p.tmp0 } }
      else some (p, b)
  | .Indirect =>
      if p.cycle = 2 then
        (fetch b).map fun vb => ({ p with tmp0 := vb.1 }, vb.2)
      else if p.cycle = 3 then
        (fetch b).map fun vb => ({ p with tmp1 := vb.1 }, vb.2)
      else if p.cycle = 4 then
        let p := { p with tmp_addr := p.tmp1 * 256 + p.tmp0 }
        (b.read p.tmp_addr).map fun vb => ({ p with tmp0 := vb.1 }, vb.2)
      else if p.cycle = 5 then
        if p.tmp_addr + 1 ≥ 65536 then none
        else
          (b.read (p.tmp_addr + 1)).bind fun vb =>
            let p := { p with tmp1 := vb.1 }
            finish p { vb.2 with cpu := { vb.2.cpu with pc := p.tmp1 * 256 + p.tmp0 } }
      else some (p, b)
  | _ => none

/-- `fn jsr` (6 cycles; pushes `pc` pointing at the last operand byte). -/
def jsr (p : InstructionProcedure) (b : Bus) : Option (InstructionProcedure × Bus) :=
  if p.cycle = 2 then
    (fetch b).map fun vb => ({ p with tmp0 := vb.1 }, vb.2)
  else if p.cycle = 3 then
    (b.read (0x100 + b.cpu.sp)).map fun vb => (p, vb.2)
  else if p.cycle = 4 then
    (stack_push b ((b.cpu.pc >>> 8) &&& 0xFF)).map fun b' => (p, b')
  else if p.cycle = 5 then
    (stack_push b (b.cpu.pc &&& 0xFF)).map fun b' => (p, b')
  else if p.cycle = 6 then
    (fetch b).bind fun vb =>
      let p := { p with tmp1 := vb.1 }
      finish p { vb.2 with cpu := { vb.2.cpu with pc := p.tmp1 * 256 + p.tmp0 } }
  else some (p, b)

/-- `fn tax`. -/
def tax (p : InstructionProcedure) (b : Bus) : Option (InstructionProcedure × Bus) :=
  if p.cycle = 2 then
    let c := b.cpu
    finish p { b with cpu := { c with x := c.acc, status := c.status.setZN c.acc } }
  else some (p, b)

/-- `fn tay`. -/
def tay (p : InstructionProcedure) (b : Bus) : Option (InstructionProcedure × Bus) :=
  if p.cycle = 2 then
    let c := b.cpu
    finish p { b with cpu := { c with y := c.acc, status := c.status.setZN c.acc } }
  else some (p, b)

/-- `fn tsx`. -/
def tsx (p : InstructionProcedure) (b : Bus) : Option (InstructionProcedure × Bus) :=
  if p.cycle = 2 then
    let c := b.cpu
    finish p { b with cpu := { c with x := c.sp, status := c.status.setZN c.sp } }
  else some (p, b)

/-- `fn txa`. -/
def txa (p : InstructionProcedure) (b : Bus) : Option (InstructionProcedure × Bus) :=
  if p.cycle = 2 then
    let c := b.cpu
    finish p { b with cpu := { c with acc := c.x, status := c.status.setZN c.x } }
  else some (p, b)

/-- `fn txs` (no flags). -/
def txs (p : InstructionProcedure) (b : Bus) : Option (InstructionProcedure × Bus) :=
  if p.cycle = 2 then
    finish p { b with cpu := { b.cpu with sp := b.cpu.x } }
  else some (p, b)

/-- `fn tya`. -/
def tya (p : InstructionProcedure) (b : Bus) : Option (InstructionProcedure × Bus) :=
  if p.cycle = 2 then
    let c := b.cpu
    finish p { b with cpu := { c with acc := c.y, status := c.status.setZN c.y } }
  else some (p, b)

/-- Dispatch on the stored instruction function. Every function that is
`unimplemented!()` in the source returns `none` (a panic on execution). -/
def runInstr : Instr → InstructionProcedure → Bus → Option (InstructionProcedure × Bus)
  | .asl, p, b => asl p b
  | .bcc, p, b => bcc p b
  | .bcs, p, b => bcs p b
  | .beq, p, b => beq p b
  | .bmi, p, b => bmi p b
  | .bne, p, b => bne p b
  | .bpl, p, b => bpl p b
  | .bvc, p, b => bvc p b
  | .bvs, p, b => bvs p b
  | .cld, p, b => cld p b
  | .dex, p, b => dex p b
  | .dey, p, b => dey p b
  | .eor, p, b => eor p b
  | .inx, p, b => inx p b
  | .iny, p, b => iny p b
  | .jmp, p, b => jmp p b
  | .jsr, p, b => jsr p b
  | .lda, p, b => lda p b
  | .ldx, p, b => ldx p b
  | .ldy, p, b => ldy p b
  | .lsr, p, b => lsr p b
  | .rol, p, b => rol p b
  | .ror, p, b => ror p b
  | .sbc, p, b => sbc p b
  | .sec, p, b => sec p b
  | .sed, p, b => sed p b
  | .sei, p, b => sei p b
  | .sta, p, b => sta p b
  | .stx, p, b => stx p b
  | .sty, p, b => sty p b
  | .tax, p, b => tax p b
  | .tay, p, b => tay p b
  | .tsx, p, b => tsx p b
  | .txa, p, b => txa p b
  | .txs, p, b => txs p b
  | .tya, p, b => tya p b
  | _, _, _ => none

/-- `InstructionProcedure::step`: run the instruction function for one
cycle, then `self.cycle += 1` (u8, debug-profile overflow aborts). -/
def InstructionProcedure.step (p : InstructionProcedure) (b : Bus) :
    Option (InstructionProcedure × Bus) :=
  (runInstr p.func p b).bind fun pb =>
    if pb.1.cycle + 1 ≥ 256 then none
    else some ({ pb.1 with cycle := pb.1.cycle + 1 }, pb.2)

set_option maxHeartbeats 3200000 in
/-- The opcode decode table from `Cpu::cycle` (opcode →
`InstructionProcedure::new(func, mode)`; an absent opcode panics). -/
def decode (opcode : Nat) : Option InstructionProcedure :=
  match opcode with
  | 0x00 => some (.new .brk .Auto)
  | 0x01 => some (.new .ora .IndirectX)
  | 0x03 => some (.new .slo .IndirectX)
  | 0x04 => some (.new .nop .Zero)
  | 0x05 => some (.new .ora .Zero)
  | 0x06 => some (.new .asl .Zero)
  | 0x07 => some (.new .slo .Zero)
  | 0x08 => some (.new .php .Implied)
  | 0x09 => some (.new .ora .Immediate)
  | 0x0A => some (.new .asl .Accumulator)
  | 0x0B => some (.new .anc .Auto)
  | 0x0C => some (.new .nop .Absolute)
  | 0x0D => some (.new .ora .Absolute)
  | 0x0E => some (.new .asl .Absolute)
  | 0x0F => some (.new .slo .Absolute)
  | 0x10 => some (.new .bpl .Relative)
  | 0x11 => some (.new .ora .IndirectY)
  | 0x13 => some (.new .slo .IndirectY)
  | 0x14 => some (.new .nop .ZeroX)
  | 0x15 => some (.new .ora .ZeroX)
  | 0x16 => some (.new .asl .ZeroX)
  | 0x17 => some (.new .slo .ZeroX)
  | 0x18 => some (.new .clc .Implied)
  | 0x19 => some (.new .ora .AbsoluteY)
  | 0x1A => some (.new .nop .Implied)
  | 0x1B => some (.new .slo .AbsoluteY)
  | 0x1C => some (.new .nop .AbsoluteX)
  | 0x1D => some (.new .ora .AbsoluteX)
  | 0x1E => some (.new .asl .AbsoluteX)
  | 0x1F => some (.new .slo .AbsoluteX)
  | 0x20 => some (.new .jsr .Auto)
  | 0x21 => some (.new .and .IndirectX)
  | 0x23 => some (.new .rla .IndirectX)
  | 0x24 => some (.new .bit .Zero)
  | 0x25 => some (.new .and .Zero)
  | 0x26 => some (.new .rol .Zero)
  | 0x27 => some (.new .rla .Zero)
  | 0x28 => some (.new .plp .Implied)
  | 0x29 => some (.new .and .Immediate)
  | 0x2A => some (.new .rol .Accumulator)
  | 0x2B => some (.new .anc .Auto)
  | 0x2C => some (.new .bit .Absolute)
  | 0x2D => some (.new .and .Absolute)
  | 0x2E => some (.new .rol .Absolute)
  | 0x2F => some (.new .rla .Absolute)
  | 0x30 => some (.new .bmi .Relative)
  | 0x31 => some (.new .and .IndirectY)
  | 0x33 => some (.new .rla .IndirectY)
  | 0x34 => some (.new .nop .ZeroX)
  | 0x35 => some (.new .and .ZeroX)
  | 0x36 => some (.new .rol .ZeroX)
  | 0x37 => some (.new .rla .ZeroX)
  | 0x38 => some (.new .sec .Implied)
  | 0x39 => some (.new .and .AbsoluteY)
  | 0x3A => some (.new .nop .Implied)
  | 0x3B => some (.new .rla .AbsoluteY)
  | 0x3C => some (.new .nop .AbsoluteX)
  | 0x3D => some (.new .and .AbsoluteX)
  | 0x3E => some (.new .rol .AbsoluteX)
  | 0x3F => some (.new .rla .AbsoluteX)
  | 0x40 => some (.new .rti .Auto)
  | 0x41 => some (.new .eor .IndirectX)
  | 0x43 => some (.new .sre .IndirectX)
  | 0x44 => some (.new .nop .Zero)
  | 0x45 => some (.new .eor .Zero)
  | 0x46 => some (.new .lsr .Zero)
  | 0x47 => some (.new .sre .Zero)
  | 0x48 => some (.new .pha .Implied)
  | 0x49 => some (.new .eor .Immediate)
  | 0x4A => some (.new .lsr .Accumulator)
  | 0x4B => some (.new .asr .Auto)
  | 0x4C => some (.new .jmp .Absolute)
  | 0x4D => some (.new .eor .Absolute)
  | 0x4E => some (.new .lsr .Absolute)
  | 0x4F => some (.new .sre .Absolute)
  | 0x50 => some (.new .bvc .Relative)
  | 0x51 => some (.new .eor .IndirectY)
  | 0x53 => some (.new .sre .IndirectY)
  | 0x54 => some (.new .nop .ZeroX)
  | 0x55 => some (.new .eor .ZeroX)
  | 0x56 => some (.new .lsr .ZeroX)
  | 0x57 => some (.new .sre .ZeroX)
  | 0x58 => some (.new .cli .Auto)
  | 0x59 => some (.new .eor .AbsoluteY)
  | 0x5A => some (.new .nop .Implied)
  | 0x5B => some (.new .sre .AbsoluteY)
  | 0x5C => some (.new .nop .AbsoluteX)
  | 0x5D => some (.new .eor .AbsoluteX)
  | 0x5E => some (.new .lsr .AbsoluteX)
  | 0x5F => some (.new .sre .AbsoluteX)
  | 0x60 => some (.new .rts .Implied)
  | 0x61 => some (.new .adc .IndirectX)
  | 0x63 => some (.new .rra .IndirectX)
  | 0x64 => some (.new .nop .Zero)
  | 0x65 => some (.new .adc .Zero)
  | 0x66 => some (.new .ror .Zero)
  | 0x67 => some (.new .rra .Zero)
  | 0x68 => some (.new .pla .Implied)
  | 0x69 => some (.new .adc .Immediate)
  | 0x6A => some (.new .ror .Accumulator)
  | 0x6B => some (.new .arr .Auto)
  | 0x6C => some (.new .jmp .Indirect)
  | 0x6D => some (.new .adc .Absolute)
  | 0x6E => some (.new .ror .Absolute)
  | 0x6F => some (.new .rra .Absolute)
  | 0x70 => some (.new .bvs .Relative)
  | 0x71 => some (.new .adc .IndirectY)
  | 0x73 => some (.new .rra .IndirectY)
  | 0x74 => some (.new .nop .ZeroX)
  | 0x75 => some (.new .adc .ZeroX)
  | 0x76 => some (.new .ror .ZeroX)
  | 0x77 => some (.new .rra .ZeroX)
  | 0x78 => some (.new .sei .Auto)
  | 0x79 => some (.new .adc .AbsoluteY)
  | 0x7A => some (.new .nop .Implied)
  | 0x7B => some (.new .rra .AbsoluteY)
  | 0x7C => some (.new .nop .AbsoluteX)
  | 0x7D => some (.new .adc .AbsoluteX)
  | 0x7E => some (.new .ror .AbsoluteX)
  | 0x7F => some (.new .rra .AbsoluteX)
  | 0x80 => some (.new .nop .Immediate)
  | 0x81 => some (.new .sta .IndirectX)
  | 0x82 => some (.new .nop .Immediate)
  | 0x83 => some (.new .sax .IndirectX)
  | 0x84 => some (.new .sty .Zero)
  | 0x85 => some (.new .sta .Zero)
  | 0x86 => some (.new .stx .Zero)
  | 0x87 => some (.new .sax .Zero)
  | 0x88 => some (.new .dey .Implied)
  | 0x89 => some (.new .nop .Immediate)
  | 0x8A => some (.new .txa .Implied)
  | 0x8B => some (.new .ane .Auto)
  | 0x8C => some (.new .sty .Absolute)
  | 0x8D => some (.new .sta .Absolute)
  | 0x8E => some (.new .stx .Absolute)
  | 0x8F => some (.new .sax .Absolute)
  | 0x90 => some (.new .bcc .Relative)
  | 0x91 => some (.new .sta .IndirectY)
  | 0x93 => some (.new .sha .IndirectY)
  | 0x94 => some (.new .sty .ZeroX)
  | 0x95 => some (.new .sta .ZeroX)
  | 0x96 => some (.new .stx .ZeroY)
  | 0x97 => some (.new .sax .ZeroY)
  | 0x98 => some (.new .tya .Implied)
  | 0x99 => some (.new .sta .AbsoluteY)
  | 0x9A => some (.new .txs .Implied)
  | 0x9B => some (.new .shs .Auto)
  | 0x9C => some (.new .shy .Auto)
  | 0x9D => some (.new .sta .AbsoluteX)
  | 0x9E => some (.new .shx .Auto)
  | 0x9F => some (.new .sha .AbsoluteY)
  | 0xA0 => some (.new .ldy .Immediate)
  | 0xA1 => some (.new .lda .IndirectX)
  | 0xA2 => some (.new .ldx .Immediate)
  | 0xA3 => some (.new .lax .IndirectX)
  | 0xA4 => some (.new .ldy .Zero)
  | 0xA5 => some (.new .lda .Zero)
  | 0xA6 => some (.new .ldx .Zero)
  | 0xA7 => some (.new .lax .Zero)
  | 0xA8 => some (.new .tay .Implied)
  | 0xA9 => some (.new .lda .Immediate)
  | 0xAA => some (.new .tax .Implied)
  | 0xAB => some (.new .lxa .Auto)
  | 0xAC => some (.new .ldy .Absolute)
  | 0xAD => some (.new .lda .Absolute)
  | 0xAE => some (.new .ldx .Absolute)
  | 0xAF => some (.new .lax .Absolute)
  | 0xB0 => some (.new .bcs .Relative)
  | 0xB1 => some (.new .lda .IndirectY)
  | 0xB3 => some (.new .lax .IndirectY)
  | 0xB4 => some (.new .ldy .ZeroX)
  | 0xB5 => some (.new .lda .ZeroX)
  | 0xB6 => some (.new .ldx .ZeroY)
  | 0xB7 => some (.new .lax .ZeroY)
  | 0xB8 => some (.new .clv .Implied)
  | 0xB9 => some (.new .lda .AbsoluteY)
  | 0xBA => some (.new .tsx .Implied)
  | 0xBB => some (.new .las .Auto)
  | 0xBC => some (.new .ldy .AbsoluteX)
  | 0xBD => some (.new .lda .AbsoluteX)
  | 0xBE => some (.new .ldx .AbsoluteY)
  | 0xBF => some (.new .lax .AbsoluteY)
  | 0xC0 => some (.new .cpy .Immediate)
  | 0xC1 => some (.new .cmp .IndirectX)
  | 0xC2 => some (.new .nop .Immediate)
  | 0xC3 => some (.new .dcp .IndirectX)
  | 0xC4 => some (.new .cpy .Zero)
  | 0xC5 => some (.new .cmp .Zero)
  | 0xC6 => some (.new .dec .Zero)
  | 0xC7 => some (.new .dcp .Zero)
  | 0xC8 => some (.new .iny .Implied)
  | 0xC9 => some (.new .cmp .Immediate)
  | 0xCA => some (.new .dex .Implied)
  | 0xCB => some (.new .sbx .Auto)
  | 0xCC => some (.new .cpy .Absolute)
  | 0xCD => some (.new .cmp .Absolute)
  | 0xCE => some (.new .dec .Absolute)
  | 0xCF => some (.new .dcp .Absolute)
  | 0xD0 => some (.new .bne .Relative)
  | 0xD1 => some (.new .cmp .IndirectY)
  | 0xD3 => some (.new .dcp .IndirectY)
  | 0xD4 => some (.new .nop .ZeroX)
  | 0xD5 => some (.new .cmp .ZeroX)
  | 0xD6 => some (.new .dec .ZeroX)
  | 0xD7 => some (.new .dcp .ZeroX)
  | 0xD8 => some (.new .cld .Auto)
  | 0xD9 => some (.new .cmp .AbsoluteY)
  | 0xDA => some (.new .nop .Implied)
  | 0xDB => some (.new .dcp .AbsoluteY)
  | 0xDC => some (.new .nop .AbsoluteX)
  | 0xDD => some (.new .cmp .AbsoluteX)
  | 0xDE => some (.new .dec .AbsoluteX)
  | 0xDF => some (.new .dcp .AbsoluteX)
  | 0xE0 => some (.new .cpx .Immediate)
  | 0xE1 => some (.new .sbc .IndirectX)
  | 0xE2 => some (.new .nop .Immediate)
  | 0xE3 => some (.new .isb .IndirectX)
  | 0xE4 => some (.new .cpx .Zero)
  | 0xE5 => some (.new .sbc .Zero)
  | 0xE6 => some (.new .inc .Zero)
  | 0xE7 => some (.new .isb .Zero)
  | 0xE8 => some (.new .inx .Implied)
  | 0xE9 => some (.new .sbc .Immediate)
  | 0xEA => some (.new .nop .Implied)
  | 0xEB => some (.new .sbc .Immediate)
  | 0xEC => some (.new .cpx .Absolute)
  | 0xED => some (.new .sbc .Absolute)
  | 0xEE => some (.new .inc .Absolute)
  | 0xEF => some (.new .isb .Absolute)
  | 0xF0 => some (.new .beq .Relative)
  | 0xF1 => some (.new .sbc .IndirectY)
  | 0xF3 => some (.new .isb .IndirectY)
  | 0xF4 => some (.new .nop .ZeroX)
  | 0xF5 => some (.new .sbc .ZeroX)
  | 0xF6 => some (.new .inc .ZeroX)
  | 0xF7 => some (.new .isb .ZeroX)
  | 0xF8 => some (.new .sed .Auto)
  | 0xF9 => some (.new .sbc .AbsoluteY)
  | 0xFA => some (.new .nop .Implied)
  | 0xFB => some (.new .isb .AbsoluteY)
  | 0xFC => some (.new .nop .AbsoluteX)
  | 0xFD => some (.new .sbc .AbsoluteX)
  | 0xFE => some (.new .inc .AbsoluteX)
  | 0xFF => some (.new .isb .AbsoluteX)
  | _ => none

/-- `Cpu::cycle`: if no instruction is in flight, (pre)fetch the opcode if
needed and decode it (cycle-free), then drive the in-flight procedure one
step; the procedure is destroyed when it reports completion. -/
def Cpu.cycle (b : Bus) : Option Bus := do
  let b ←
    match b.cpu.procedure with
    | some _ => some b
    | none => do
        let (op, b) ←
          match b.cpu.prefetch with
          | some v => some (v, b)
          | none =>
              (fetch b).map fun vb =>
                let c := { vb.2.cpu with prefetch := some vb.1, fetch_needed := true }
                (vb.1, { vb.2 with cpu := c })
        let b := { b with cpu := { b.cpu with prefetch := none } }
        let p ← decode op
        some { b with cpu := { b.cpu with procedure := some p, fetch_needed := false } }
  match b.cpu.procedure with
  | none => none
  | some p => do
      let (p', b') ← p.step b
      if p'.done then
        some { b' with cpu := { b'.cpu with procedure := none } }
      else
        some { b' with cpu := { b'.cpu with procedure := some p' } }

/-- `Tia::cycle`: one oscillator tick — render a pixel when visible, drive
the CPU ready line from WSYNC, clock the CPU then the PIA on every third
tick, advance the counters, clear WSYNC on scanline wrap, and perform the
frame reset when the latched VSYNC edge trigger is pending and the VSYNC
level has gone low. -/
def Tia.cycle (b : Bus) : Option Bus := do
  let b ←
    if (!b.tia.vblank) && decide (68 ≤ b.tia.cycles.color_clock)
        && decide (0 < b.tia.cycles.frame_counter) then do
      let pixel := b.tia.cycles.color_clock - 68
      let dot := pixel / 4
      let pf_bit ← b.tia.pf_lut dot (decide (b.tia.ctrlpf &&& 0b1 ≠ 0))
      let color ← b.tia.color_lut pf_bit
      some { b with tia := { b.tia with
        framebuffer := upd b.tia.framebuffer b.tia.cycles.pixel_index color } }
    else some b
  let b := { b with cpu := { b.cpu with rdy := !b.tia.wsync } }
  let b ←
    if b.tia.cycles.div3 = 0 then do
      let b := { b with tia := { b.tia with cycles := { b.tia.cycles with
                   frame_cpu_counter := b.tia.cycles.frame_cpu_counter + 1 } } }
      let b ← Cpu.cycle b
      let pia ← b.pia.cycle
      some { b with pia := pia }
    else some b
  let b := { b with tia := { b.tia with cycles := b.tia.cycles.osc_cycle } }
  let b :=
    if b.tia.cycles.color_clock = 0 then
      { b with tia := { b.tia with wsync := false } }
    else b
  if b.tia.vsync_trigger && !b.tia.vsync then
    let cyc0 := { b.tia.cycles with frame_cpu_counter := 0, scanline := 0 }
    let cyc := { cyc0 with frame_counter := cyc0.frame_counter + 1 }
    some { b with tia := { b.tia with vsync_trigger := false, cycles := cyc } }
  else some b

/-- Run the whole machine for `n` oscillator ticks. -/
def Bus.run (n : Nat) (b : Bus) : Option Bus := stepRun Tia.cycle n b

/-- Run the CPU alone for `n` CPU-rate cycles (instruction-timing claims
count these). -/
def Bus.cpuRun (n : Nat) (b : Bus) : Option Bus := stepRun Cpu.cycle n b

/-! ## Concrete machine states used by the claims -/

/-- A ROM whose reset code is `JMP $F000` at 0xF000: an infinite 3-cycle
loop that performs no bus writes. -/
def loopRom : Cartridge :=
  ⟨fun a => if a = 0 then 0x4C else if a = 1 then 0x00 else if a = 2 then 0xF0 else 0⟩

/-- The all-zero byte store (stack page / RAM / framebuffer cells). -/
def zbytes : Nat → Nat := fun _ => 0

/-- CPU at the loop entry (about to fetch the JMP opcode). The fields are
pc, sp, status, acc, x, y, rdy, stack, prefetch, fetch_needed,
cycles_to_wait, procedure, counter. -/
def cpuA0 : Cpu :=
  ⟨0xF000, 0, StatusReg.default, 0, 0, 0, true, zbytes, none, false, 0, none, 1⟩

/-- CPU one step into the loop: JMP absolute procedure at cycle 2. -/
def cpuA1 : Cpu :=
  ⟨0xF001, 0, StatusReg.default, 0, 0, 0, true, zbytes, none, false, 0,
    some ⟨false, .jmp, .Absolute, 2, 0, 0, 0⟩, 1⟩

/-- CPU two steps in: low operand byte consumed, cycle 3. -/
def cpuA2 : Cpu :=
  ⟨0xF002, 0, StatusReg.default, 0, 0, 0, true, zbytes, none, false, 0,
    some ⟨false, .jmp, .Absolute, 3, 0, 0, 0⟩, 1⟩

/-- CPU three steps in: jump taken and next opcode prefetched. -/
def cpuA3 : Cpu :=
  ⟨0xF001, 0, StatusReg.default, 0, 0, 0, true, zbytes, some 0x4C, false, 0, none, 1⟩

/-- A status register with only Zero set in addition to the default bits. -/
def zeroSet : StatusReg := { StatusReg.default with zero := true }

/-! ## Claim C9: unmapped bus addresses -/

/-- A concrete unmapped probe: address 0x0400 lies in none of the decoded
windows. -/
def c9bus : Bus := Bus.default

/-- C9 as stated is false: a write to the unmapped address 0x0400 is not
"reported and ignored leaving machine state unchanged" (that would be
`some c9bus`), and a read does not "return an implementation-chosen
default" (that would be `some (v, _)`): both abort (`panic!`). -/
theorem claim_C9_counterexample :
    Bus.write c9bus 0x0400 0xAB = none ∧ Bus.read c9bus 0x0400 = none := ⟨rfl, rfl⟩

/-- C9 amended: for every address outside all mapped windows (TIA
0x0000–0x002C write / 0x0000–0x000D and 0x0030–0x003D read, PIA
0x0080–0x00FF and 0x0280–0x0297, CPU stack 0x0100–0x01FF, cartridge
0xF000–0xFFFF), both a bus write and a bus read are fatal (`panic!`), with
no dispatch to any peripheral — matching §7's "address with no owning
peripheral" error class. -/
theorem claim_C9_unmapped_is_fatal (b : Bus) (addr data : Nat)
    (h : ¬ (addr ≤ 0x003D ∨ (0x0080 ≤ addr ∧ addr ≤ 0x00FF)
            ∨ (0x0100 ≤ addr ∧ addr ≤ 0x01FF) ∨ (0x0280 ≤ addr ∧ addr ≤ 0x0297)
            ∨ (0xF000 ≤ addr ∧ addr ≤ 0xFFFF))) :
    Bus.write b addr data = none ∧ Bus.read b addr = none := by
  constructor
  · unfold Bus.write
    rw [if_neg (by omega), if_neg (by omega), if_neg (by omega), if_neg (by omega)]
  · unfold Bus.read
    rw [if_neg (by omega), if_neg (by omega), if_neg (by omega), if_neg (by omega)]

theorem claim_C9_witness :
    Bus.write Bus.default 0x0500 0x12 = none ∧ Bus.read Bus.default 0x0500 = none :=
  claim_C9_unmapped_is_fatal Bus.default 0x0500 0x12 (by omega)

/-! ## Claim C1: WSYNC and the CPU ready line -/

/-- A machine mid-scanline with the WSYNC latch set and the divide-by-3
counter at 0 (a CPU-clock tick), whose CPU is in the middle of a DEX
instruction (cycle 2 pending) with X = 5. -/
def c1cpu : Cpu :=
  { Cpu.default with
    pc := 0xF001
    x := 5
    procedure := some { InstructionProcedure.new .dex .Implied with cycle := 2 } }

def c1tia : Tia :=
  { Tia.default with
    wsync := true
    cycles := { CycleCounter.default with color_clock := 10, scanline := 5 } }

def c1bus : Bus := { Bus.default with tia := c1tia, cpu := c1cpu, cart := loopRom }

/-- C1: the ready line is indeed driven to the negation of the WSYNC latch
on the tick (rdy = false while wsync = true), but the CPU is *not* halted:
`Cpu::cycle` never consults `rdy`, so during a tick on which WSYNC stays
set the in-flight DEX still executes — X drops from 5 to 4 and the
instruction completes. The claim's "the CPU's architectural state does not
advance" is violated by the code. -/
theorem claim_C1_wsync_does_not_halt :
    c1bus.cpu.x = 5 ∧ c1bus.tia.wsync = true ∧
    (Tia.cycle c1bus).map
        (fun b => (b.cpu.rdy, b.tia.wsync, b.cpu.x, b.cpu.procedure.isSome))
      = some (false, true, 4, false) := by
  refine ⟨rfl, rfl, ?_⟩
  rfl

/-! ## Claim C2: indirect JMP page-wrap quirk -/

/-- `JMP ($00FF)`: opcode bytes 6C FF 00 at 0xF000. The pointer low byte
lives at 0x00FF (PIA RAM cell 0x7F = 0x34); under the 6502 quirk the high
byte must come from 0x0000 (same page start, reads 0 from the TIA), giving
target 0x0034. The next page's byte 0x0100 (CPU stack cell 0 = 0xF1) is
what the code actually reads. -/
def c2rom : Cartridge :=
  ⟨fun a => if a = 0 then 0x6C else if a = 1 then 0xFF else if a = 2 then 0x00 else 0⟩

def c2cpu : Cpu :=
  { Cpu.default with
    pc := 0xF001
    prefetch := some 0x6C
    stack := fun i => if i = 0 then 0xF1 else 0 }

def c2pia : Pia := { Pia.default with ram := fun i => if i = 0x7F then 0x34 else 0 }

def c2bus : Bus := { Bus.default with cart := c2rom, cpu := c2cpu, pia := c2pia }

/-- C2: the code violates the quirk. With pointer 0x00FF the high byte is
read from 0x0100 (`tmp_addr + 1`, next page) rather than from 0x0000 (same
page start): after the 5-cycle indirect JMP the PC sits one past the jump
target 0xF134 = (0xF1 << 8) | 0x34, whereas the quirk demands target
0x0034 = (byte at 0x0000 << 8) | 0x34. The auxiliary conjuncts exhibit the
two candidate high-byte locations. -/
theorem claim_C2_indirect_jmp_no_page_wrap :
    (Bus.read c2bus 0x00FF).map Prod.fst = some 0x34 ∧
    (Bus.read c2bus 0x0100).map Prod.fst = some 0xF1 ∧
    (Bus.read c2bus 0x0000).map Prod.fst = some 0x00 ∧
    (Bus.cpuRun 5 c2bus).map (fun b => (b.cpu.pc, b.cpu.procedure.isSome))
      = some (0xF135, false) ∧
    (0xF135 : Nat) ≠ 0x0035 := by
  refine ⟨?_, ?_, ?_, ?_, by norm_num⟩ <;> rfl

/-! ## Claim C5: zero-page,X/Y cycle templates -/

/-- `LDA $84,X` with X = 5: bytes B5 84 at 0xF000; PIA RAM cell 9
(= (0x84 + 5) & 0xFF & 0x7F) holds 0x77; the timer's interval-active flag
is off so any re-arming side effect of a bus read would be visible. -/
def c5ldaCpu : Cpu := { Cpu.default with pc := 0xF001, prefetch := some 0xB5, x := 5 }

def c5pia : Pia :=
  { Pia.default with
    intim_interval_active := false
    ram := fun i => if i = 9 then 0x77 else if i = 0 then 0x55 else 0 }

def c5ldaBus : Bus :=
  { Bus.default with
    cpu := c5ldaCpu
    pia := c5pia
    cart := ⟨fun a => if a = 0 then 0xB5 else if a = 1 then 0x84 else 0⟩ }

/-- `ASL $10,X` (bytes 16 10): the read-modify-write path *does* perform
the discarded cycle-3 read at the unindexed address 0x0010 — which is
unmapped, so the emulator aborts on cycle 3. -/
def c5aslCpu : Cpu := { Cpu.default with pc := 0xF001, prefetch := some 0x16, x := 0x70 }

def c5aslBus : Bus :=
  { Bus.default with
    cpu := c5aslCpu
    pia := c5pia
    cart := ⟨fun a => if a = 0 then 0x16 else if a = 1 then 0x10 else 0⟩ }

/-- `LDA $10,X` with X = 0x70 (bytes B5 10): same unindexed base address
0x0010 — per the claim, cycle 3 must issue a bus read there (which would
abort, as the RMW path shows); instead the instruction completes normally,
because `effective_addr`'s cycle-3 read exists only as a comment. -/
def c5lda10Cpu : Cpu := { Cpu.default with pc := 0xF001, prefetch := some 0xB5, x := 0x70 }

def c5lda10Bus : Bus :=
  { Bus.default with
    cpu := c5lda10Cpu
    pia := c5pia
    cart := ⟨fun a => if a = 0 then 0xB5 else if a = 1 then 0x10 else 0⟩ }

/-- C5: cycle 2 does fetch the base byte (PC has advanced to 0xF002 after
two cycles) and cycle 4 does form the address `(base + X) & 0xFF` (the
load completes on cycle 4 with ACC = 0x77 from cell 0x89); but cycle 3
performs *no* bus read in the `effective_addr` path: `LDA $10,X` survives
cycle 3 and completes even though its unindexed base address 0x0010 is
unmapped, while the RMW instruction `ASL $10,X` — whose cycle-3 discarded
read is really executed — aborts on cycle 3 exactly there. -/
theorem claim_C5_zero_page_indexed_template :
    (Bus.cpuRun 2 c5ldaBus).map (fun b => (b.cpu.pc, b.cpu.procedure.isSome))
      = some (0xF002, true) ∧
    (Bus.cpuRun 3 c5ldaBus).map (fun b => (b.cpu.pc, b.pia.intim_interval_active))
      = some (0xF002, false) ∧
    (Bus.cpuRun 4 c5ldaBus).map (fun b => (b.cpu.acc, b.cpu.procedure.isSome))
      = some (0x77, false) ∧
    (Bus.cpuRun 4 c5lda10Bus).map (fun b => (b.cpu.acc, b.cpu.procedure.isSome))
      = some (0x55, false) ∧
    (Bus.cpuRun 2 c5aslBus).map (fun b => b.cpu.procedure.isSome) = some true ∧
    Bus.cpuRun 3 c5aslBus = none ∧
    Bus.read c5aslBus 0x0010 = none := by
  refine ⟨?_, ?_, ?_, ?_, ?_, ?_, ?_⟩ <;> rfl

/-! ## Claim C4: branch timing -/

/-- `BEQ $05` at 0xF000 with Zero set (bytes F0 05; marker bytes 0xB1 at
0xF002 and 0xB7 at 0xF007 identify where the following opcode was
prefetched from). -/
def c4rom : Cartridge :=
  ⟨fun a =>
    if a = 0 then 0xF0 else if a = 1 then 0x05
    else if a = 2 then 0xB1 else if a = 7 then 0xB7 else 0⟩

def c4takenBus : Bus :=
  { Bus.default with
    cart := c4rom
    cpu := { Cpu.default with pc := 0xF001, prefetch := some 0xF0, status := zeroSet } }

def c4notBus : Bus :=
  { Bus.default with
    cart := c4rom
    cpu := { Cpu.default with pc := 0xF001, prefetch := some 0xF0 } }

/-- `BEQ $05` at 0xF0FD with Zero set: the target 0xF104 crosses the page
boundary (marker byte 0xC4 at 0xF104). -/
def c4crossRom : Cartridge :=
  ⟨fun a =>
    if a = 0xFD then 0xF0 else if a = 0xFE then 0x05
    else if a = 0x104 then 0xC4 else 0⟩

def c4crossBus : Bus :=
  { Bus.default with
    cart := c4crossRom
    cpu := { Cpu.default with pc := 0xF0FE, prefetch := some 0xF0, status := zeroSet } }

/-- The claim's literal scenario: BEQ at PC = 0x1000. Nothing is mapped at
0x1000, so the operand fetch itself aborts. -/
def c4badBus : Bus :=
  { Bus.default with
    cpu := { Cpu.default with pc := 0x1001, prefetch := some 0xF0, status := zeroSet } }

/-- C4 as stated is false at its own concrete input: with PC = 0x1000 the
machine cannot complete the BEQ in 3 cycles leaving PC = 0x1007 — the
displacement fetch on cycle 2 hits the unmapped address 0x1001 and the
emulator aborts. -/
theorem claim_C4_counterexample :
    Bus.cpuRun 3 c4badBus = none ∧ Bus.cpuRun 2 c4badBus = none := by
  refine ⟨?_, ?_⟩ <;> rfl

/-- C4 amended: with the instruction in mapped ROM the branch timing
behaves exactly as claimed. A BEQ at 0xF000 with Zero clear completes in 2
cycles (still in flight after 1) continuing at 0xF002; with Zero set it
completes in 3 cycles (in flight after 2) at the same-page target 0xF007;
a BEQ at 0xF0FD with Zero set completes in 4 cycles (in flight after 3) at
the page-crossing target 0xF104. The architectural "PC" after completion
is the prefetched-opcode address: the register reads target + 1 because
the final cycle already fetched the next opcode (the marker bytes prove
where it was fetched from). The literal 0x1000 scenario aborts on an
unmapped fetch instead. -/
theorem claim_C4_branch_timing :
    (Bus.cpuRun 1 c4notBus).map (fun b => b.cpu.procedure.isSome) = some true ∧
    (Bus.cpuRun 2 c4notBus).map
        (fun b => (b.cpu.pc, b.cpu.prefetch, b.cpu.procedure.isSome))
      = some (0xF003, some 0xB1, false) ∧
    (Bus.cpuRun 2 c4takenBus).map (fun b => b.cpu.procedure.isSome) = some true ∧
    (Bus.cpuRun 3 c4takenBus).map
        (fun b => (b.cpu.pc, b.cpu.prefetch, b.cpu.procedure.isSome))
      = some (0xF008, some 0xB7, false) ∧
    (Bus.cpuRun 3 c4crossBus).map (fun b => b.cpu.procedure.isSome) = some true ∧
    (Bus.cpuRun 4 c4crossBus).map
        (fun b => (b.cpu.pc, b.cpu.prefetch, b.cpu.procedure.isSome))
      = some (0xF105, some 0xC4, false) := by
  refine ⟨?_, ?_, ?_, ?_, ?_, ?_⟩ <;> rfl

/-! ## Claim C3: VSYNC rising edge and the frame counters

The counterexample machine runs the `JMP $F000` loop (no bus writes ever)
after a VSYNC rising-edge write, so the VSYNC level stays high and the
frame logic — which in the source fires only when the level has gone low
again with the edge trigger still latched — never runs. -/

/-- TIA state during the C3 run: VSYNC level high, edge trigger latched,
everything else at reset values, with the given counter block.
Fields: vsync, vsync_trigger, vblank, wsync, colupf, colubk, ctrlpf, pf0,
pf1, pf2, cycles, framebuffer, fb_color. -/
def tiaC3 (cyc : CycleCounter) : Tia :=
  ⟨true, true, false, false, 0, 0, 0, 0, 0, 0, cyc, zbytes, 0⟩

/-- The C3 machine: looping CPU, VSYNC held high with the trigger pending. -/
def mkC3 (cyc : CycleCounter) (cpu : Cpu) (pia : Pia) : Bus :=
  ⟨tiaC3 cyc, cpu, pia, loopRom⟩

/-- The machine just before the VSYNC rising-edge write. -/
def c3busPre : Bus := { Bus.default with cart := loopRom, cpu := cpuA0 }

theorem c3_edge_write :
    Bus.write c3busPre 0x0000 0x02 = some (mkC3 ⟨0, 0, 0, 0, 0, 0⟩ cpuA0 Pia.default) := by
  rfl

/-! ### The CPU around the JMP loop (one derived-clock step each) -/

theorem c3_read0 (t : Tia) (c : Cpu) (pia : Pia) :
    Bus.read ⟨t, c, pia, loopRom⟩ 0xF000 = some (0x4C, ⟨t, c, pia, loopRom⟩) := by
  simp [Bus.read, Cartridge.read, loopRom]

theorem c3_read1 (t : Tia) (c : Cpu) (pia : Pia) :
    Bus.read ⟨t, c, pia, loopRom⟩ 0xF001 = some (0x00, ⟨t, c, pia, loopRom⟩) := by
  simp [Bus.read, Cartridge.read, loopRom]

theorem c3_read2 (t : Tia) (c : Cpu) (pia : Pia) :
    Bus.read ⟨t, c, pia, loopRom⟩ 0xF002 = some (0xF0, ⟨t, c, pia, loopRom⟩) := by
  simp [Bus.read, Cartridge.read, loopRom]

theorem c3_fetch0 (t : Tia) (pia : Pia) :
    fetch ⟨t, ⟨0xF000, 0, StatusReg.default, 0, 0, 0, true, zbytes,
        none, false, 0, none, 1⟩, pia, loopRom⟩
      = some (0x4C, ⟨t, ⟨0xF001, 0, StatusReg.default, 0, 0, 0, true, zbytes,
          none, false, 0, none, 1⟩, pia, loopRom⟩) := by
  rw [fetch]
  rw [show (⟨t, ⟨0xF000, 0, StatusReg.default, 0, 0, 0, true, zbytes,
        none, false, 0, none, 1⟩, pia, loopRom⟩ : Bus).cpu.pc = 0xF000 from rfl]
  rw [c3_read0, Option.some_bind]
  simp

theorem c3_fetch1 (t : Tia) (pia : Pia) :
    fetch ⟨t, ⟨0xF001, 0, StatusReg.default, 0, 0, 0, true, zbytes,
        none, false, 0, some ⟨false, .jmp, .Absolute, 2, 0, 0, 0⟩, 1⟩, pia, loopRom⟩
      = some (0x00, ⟨t, ⟨0xF002, 0, StatusReg.default, 0, 0, 0, true, zbytes,
          none, false, 0, some ⟨false, .jmp, .Absolute, 2, 0, 0, 0⟩, 1⟩, pia, loopRom⟩) := by
  rw [fetch]
  rw [show (⟨t, ⟨0xF001, 0, StatusReg.default, 0, 0, 0, true, zbytes,
        none, false, 0, some ⟨false, .jmp, .Absolute, 2, 0, 0, 0⟩, 1⟩, pia, loopRom⟩ : Bus).cpu.pc
      = 0xF001 from rfl]
  rw [c3_read1, Option.some_bind]
  simp

theorem c3_fetch2j (t : Tia) (pia : Pia) :
    fetch ⟨t, ⟨0xF000, 0, StatusReg.default, 0, 0, 0, true, zbytes,
        none, false, 0, some ⟨false, .jmp, .Absolute, 3, 0, 0, 0⟩, 1⟩, pia, loopRom⟩
      = some (0x4C, ⟨t, ⟨0xF001, 0, StatusReg.default, 0, 0, 0, true, zbytes,
          none, false, 0, some ⟨false, .jmp, .Absolute, 3, 0, 0, 0⟩, 1⟩, pia, loopRom⟩) := by
  rw [fetch]
  rw [show (⟨t, ⟨0xF000, 0, StatusReg.default, 0, 0, 0, true, zbytes,
        none, false, 0, some ⟨false, .jmp, .Absolute, 3, 0, 0, 0⟩, 1⟩, pia, loopRom⟩ : Bus).cpu.pc
      = 0xF000 from rfl]
  rw [c3_read0, Option.some_bind]
  simp

theorem c3_decode_jmp : decode 0x4C = some ⟨false, .jmp, .Absolute, 1, 0, 0, 0⟩ := by rfl

theorem c3_cpu_step0 (t : Tia) (pia : Pia) :
    Cpu.cycle ⟨t, cpuA0, pia, loopRom⟩ = some ⟨t, cpuA1, pia, loopRom⟩ := by
  simp [Cpu.cycle, cpuA0, cpuA1, c3_fetch0, c3_decode_jmp,
    InstructionProcedure.step, runInstr, jmp]

theorem c3_cpu_step1 (t : Tia) (pia : Pia) :
    Cpu.cycle ⟨t, cpuA1, pia, loopRom⟩ = some ⟨t, cpuA2, pia, loopRom⟩ := by
  simp [Cpu.cycle, cpuA1, cpuA2, c3_fetch1, InstructionProcedure.step, runInstr, jmp]

/-- `Cpu::cycle` when an instruction procedure is already in flight: the
opcode-fetch/decode phase is skipped and the procedure is stepped once. -/
theorem Cpu.cycle_of_proc (b : Bus) (p : InstructionProcedure)
    (hb : b.cpu.procedure = some p) :
    Cpu.cycle b = (p.step b).bind (fun pb =>
      if pb.1.done = true then
        some { pb.2 with cpu := { pb.2.cpu with procedure := none } }
      else
        some { pb.2 with cpu := { pb.2.cpu with procedure := some pb.1 } }) := by
  simp only [Cpu.cycle, hb, Option.bind_eq_bind, Option.some_bind]

theorem c3_cpu_step2 (t : Tia) (pia : Pia) :
    Cpu.cycle ⟨t, cpuA2, pia, loopRom⟩ = some ⟨t, cpuA3, pia, loopRom⟩ := by
  have hj : jmp ⟨false, .jmp, .Absolute, 3, 0, 0, 0⟩ ⟨t, cpuA2, pia, loopRom⟩
      = some (⟨true, .jmp, .Absolute, 3, 0, 0, 0⟩,
          ⟨t, ⟨0xF001, 0, StatusReg.default, 0, 0, 0, true, zbytes, some 0x4C, false, 0,
            some ⟨false, .jmp, .Absolute, 3, 0, 0, 0⟩, 1⟩, pia, loopRom⟩) := by
    show (Bus.read ⟨t, cpuA2, pia, loopRom⟩ 0xF002).bind (fun vb =>
        finish ⟨false, .jmp, .Absolute, 3, 0, 0, 0⟩
          (⟨vb.2.tia, ⟨vb.1 * 256 + 0, vb.2.cpu.sp, vb.2.cpu.status, vb.2.cpu.acc, vb.2.cpu.x,
            vb.2.cpu.y, vb.2.cpu.rdy, vb.2.cpu.stack, vb.2.cpu.prefetch, vb.2.cpu.fetch_needed,
            vb.2.cpu.cycles_to_wait, vb.2.cpu.procedure, vb.2.cpu.counter⟩,
            vb.2.pia, vb.2.cart⟩ : Bus))
      = some (⟨true, .jmp, .Absolute, 3, 0, 0, 0⟩,
          ⟨t, ⟨0xF001, 0, StatusReg.default, 0, 0, 0, true, zbytes, some 0x4C, false, 0,
            some ⟨false, .jmp, .Absolute, 3, 0, 0, 0⟩, 1⟩, pia, loopRom⟩)
    rw [c3_read2, Option.some_bind]
    show finish ⟨false, .jmp, .Absolute, 3, 0, 0, 0⟩
        ⟨t, ⟨(0xF0 : Nat) * 256 + 0, 0, StatusReg.default, 0, 0, 0, true, zbytes, none, false, 0,
          some ⟨false, .jmp, .Absolute, 3, 0, 0, 0⟩, 1⟩, pia, loopRom⟩
      = some (⟨true, .jmp, .Absolute, 3, 0, 0, 0⟩,
          ⟨t, ⟨0xF001, 0, StatusReg.default, 0, 0, 0, true, zbytes, some 0x4C, false, 0,
            some ⟨false, .jmp, .Absolute, 3, 0, 0, 0⟩, 1⟩, pia, loopRom⟩)
    rw [show (0xF0 : Nat) * 256 + 0 = 0xF000 from by norm_num]
    rw [finish, c3_fetch2j]
    rfl
  have hs : InstructionProcedure.step ⟨false, .jmp, .Absolute, 3, 0, 0, 0⟩
        ⟨t, cpuA2, pia, loopRom⟩
      = some (⟨true, .jmp, .Absolute, 4, 0, 0, 0⟩,
          ⟨t, ⟨0xF001, 0, StatusReg.default, 0, 0, 0, true, zbytes, some 0x4C, false, 0,
            some ⟨false, .jmp, .Absolute, 3, 0, 0, 0⟩, 1⟩, pia, loopRom⟩) := by
    show (jmp ⟨false, .jmp, .Absolute, 3, 0, 0, 0⟩ ⟨t, cpuA2, pia, loopRom⟩).bind (fun pb =>
        if pb.1.cycle + 1 ≥ 256 then none
        else some ((⟨pb.1.done, pb.1.func, pb.1.mode, pb.1.cycle + 1, pb.1.tmp0, pb.1.tmp1,
          pb.1.tmp_addr⟩ : InstructionProcedure), pb.2))
      = some (⟨true, .jmp, .Absolute, 4, 0, 0, 0⟩,
          ⟨t, ⟨0xF001, 0, StatusReg.default, 0, 0, 0, true, zbytes, some 0x4C, false, 0,
            some ⟨false, .jmp, .Absolute, 3, 0, 0, 0⟩, 1⟩, pia, loopRom⟩)
    rw [hj, Option.some_bind]
    rfl
  rw [Cpu.cycle_of_proc ⟨t, cpuA2, pia, loopRom⟩ ⟨false, .jmp, .Absolute, 3, 0, 0, 0⟩ rfl,
    hs, Option.some_bind]
  rfl

theorem c3_cpu_step3 (t : Tia) (pia : Pia) :
    Cpu.cycle ⟨t, cpuA3, pia, loopRom⟩ = some ⟨t, cpuA1, pia, loopRom⟩ := by
  simp [Cpu.cycle, cpuA3, cpuA1, c3_decode_jmp, InstructionProcedure.step, runInstr, jmp]

/-- The CPU state reached after `k` derived-clock (CPU-rate) ticks of the
`JMP $F000` loop, starting from `cpuA0`: the engine settles into the
period-3 rotation `cpuA1 → cpuA2 → cpuA3 → cpuA1 → …`. -/
def cpuPhase (k : Nat) : Cpu :=
  if k = 0 then cpuA0
  else if k % 3 = 1 then cpuA1
  else if k % 3 = 2 then cpuA2
  else cpuA3

theorem c3_cpu_phase_step (k : Nat) (t : Tia) (p : Pia) :
    Cpu.cycle ⟨t, cpuPhase k, p, loopRom⟩ = some ⟨t, cpuPhase (k + 1), p, loopRom⟩ := by
  by_cases h0 : k = 0
  · subst h0
    rw [show cpuPhase 0 = cpuA0 from rfl, show cpuPhase 1 = cpuA1 from rfl]
    exact c3_cpu_step0 t p
  · have hm : k % 3 = 0 ∨ k % 3 = 1 ∨ k % 3 = 2 := by omega
    rcases hm with h | h | h
    · have h1 : cpuPhase k = cpuA3 := by simp [cpuPhase, h0, h]
      have h2 : cpuPhase (k + 1) = cpuA1 := by
        have h3 : (k + 1) % 3 = 1 := by omega
        simp [cpuPhase, h3]
      rw [h1, h2]
      exact c3_cpu_step3 t p
    · have h1 : cpuPhase k = cpuA1 := by simp [cpuPhase, h0, h]
      have h2 : cpuPhase (k + 1) = cpuA2 := by
        have h3 : (k + 1) % 3 = 2 := by omega
        simp [cpuPhase, h3]
      rw [h1, h2]
      exact c3_cpu_step1 t p
    · have h1 : cpuPhase k = cpuA2 := by simp [cpuPhase, h0, h]
      have h2 : cpuPhase (k + 1) = cpuA3 := by
        have h3 : (k + 1) % 3 = 0 := by omega
        simp [cpuPhase, h3]
      rw [h1, h2]
      exact c3_cpu_step2 t p

theorem c3_phase_rdy (k : Nat) :
    ({ cpuPhase k with rdy := true } : Cpu) = cpuPhase k := by
  unfold cpuPhase
  split_ifs <;> rfl

/-- Well-formedness of the PIA timer state: the configured interval is
positive and, while interval mode is active, the phase counter is positive
(so the `usize` decrement in `Pia::cycle` cannot underflow). -/
def PiaWF (p : Pia) : Prop :=
  1 ≤ p.intim_interval ∧ (p.intim_interval_active = true → 1 ≤ p.intim_counter)

theorem PiaWF_default : PiaWF Pia.default := by
  constructor
  · norm_num [Pia.default]
  · intro _
    norm_num [Pia.default]

theorem PiaWF_step (p : Pia) (h : PiaWF p) :
    ∃ q, Pia.cycle p = some q ∧ PiaWF q := by
  obtain ⟨h1, h2⟩ := h
  by_cases ht : p.intim_trigger = true
  · refine ⟨⟨p.ram, p.intim, p.intim_interval, true, 1, false⟩, ?_, h1, fun _ => le_refl 1⟩
    simp [Pia.cycle, ht]
  · by_cases ha : p.intim_interval_active = true
    · have hc : ¬(p.intim_counter = 0) := by
        have := h2 ha
        omega
      by_cases hz : p.intim_counter - 1 = 0
      · by_cases hv : (p.intim + 255) % 256 = 0xFF
        · refine ⟨⟨p.ram, (p.intim + 255) % 256, p.intim_interval, false, 1, p.intim_trigger⟩,
            ?_, h1, fun _ => le_refl 1⟩
          simp [Pia.cycle, ht, ha, hc, hz, hv]
        · refine ⟨⟨p.ram, (p.intim + 255) % 256, p.intim_interval, p.intim_interval_active,
            p.intim_interval, p.intim_trigger⟩, ?_, h1, fun _ => h1⟩
          simp [Pia.cycle, ht, ha, hc, hz, hv]
      · refine ⟨⟨p.ram, p.intim, p.intim_interval, p.intim_interval_active,
          p.intim_counter - 1, p.intim_trigger⟩, ?_, h1,
          fun _ => show 1 ≤ p.intim_counter - 1 by omega⟩
        simp [Pia.cycle, ht, ha, hc, hz]
    · refine ⟨⟨p.ram, (p.intim + 255) % 256, p.intim_interval, p.intim_interval_active,
        p.intim_counter, p.intim_trigger⟩, ?_, h1, fun hh => absurd hh ha⟩
      simp [Pia.cycle, ht, ha]

/-- One `osc_cycle` step in terms of a global tick count `n`: the counters
track `n % 3`, `(n / 228) % 262` and `n % 228` while the frame counter
stays put (its increment in the source is commented out). -/
theorem c3_osc_track (n osc d3 sl cc fcc : Nat)
    (h3 : d3 = n % 3) (hsl : sl = (n / 228) % 262) (hcc : cc = n % 228) :
    CycleCounter.osc_cycle ⟨osc, d3, sl, cc, fcc, 0⟩
      = ⟨osc + 1, (n + 1) % 3, ((n + 1) / 228) % 262, (n + 1) % 228, fcc, 0⟩ := by
  subst h3 hsl hcc
  simp only [CycleCounter.osc_cycle]
  split_ifs <;> simp_all [CycleCounter.mk.injEq] <;> omega

/-- One TIA oscillator tick on a non-CPU phase (`div3 ≠ 0`) of the C3
machine: only the cycle counters advance. -/
theorem c3_tick_skip (osc d3 sl cc fcc : Nat) (cpu : Cpu) (p : Pia)
    (hd : ¬(d3 = 0)) (hr : ({ cpu with rdy := true } : Cpu) = cpu) :
    Tia.cycle ⟨⟨true, true, false, false, 0, 0, 0, 0, 0, 0,
        ⟨osc, d3, sl, cc, fcc, 0⟩, zbytes, 0⟩, cpu, p, loopRom⟩
      = some ⟨⟨true, true, false, false, 0, 0, 0, 0, 0, 0,
          CycleCounter.osc_cycle ⟨osc, d3, sl, cc, fcc, 0⟩, zbytes, 0⟩, cpu, p, loopRom⟩ := by
  simp [Tia.cycle, hd, hr, Option.bind_eq_bind, Option.some_bind]

/-- One TIA oscillator tick on a CPU phase (`div3 = 0`) of the C3 machine:
the CPU and the PIA each advance one derived-clock step and the frame CPU
counter increments. -/
theorem c3_tick_cpu (osc sl cc fcc : Nat) (cIn cOut : Cpu) (p q : Pia)
    (hr : ({ cIn with rdy := true } : Cpu) = cIn)
    (hcpu : Cpu.cycle ⟨⟨true, true, false, false, 0, 0, 0, 0, 0, 0,
        ⟨osc, 0, sl, cc, fcc + 1, 0⟩, zbytes, 0⟩, cIn, p, loopRom⟩
      = some ⟨⟨true, true, false, false, 0, 0, 0, 0, 0, 0,
          ⟨osc, 0, sl, cc, fcc + 1, 0⟩, zbytes, 0⟩, cOut, p, loopRom⟩)
    (hpia : Pia.cycle p = some q) :
    Tia.cycle ⟨⟨true, true, false, false, 0, 0, 0, 0, 0, 0,
        ⟨osc, 0, sl, cc, fcc, 0⟩, zbytes, 0⟩, cIn, p, loopRom⟩
      = some ⟨⟨true, true, false, false, 0, 0, 0, 0, 0, 0,
          CycleCounter.osc_cycle ⟨osc, 0, sl, cc, fcc + 1, 0⟩, zbytes, 0⟩, cOut, q, loopRom⟩ := by
  simp [Tia.cycle, hr, hcpu, hpia, Option.bind_eq_bind, Option.some_bind]

/-- Run invariant for the C3 machine after `n` oscillator ticks from the
post-edge-write state: VSYNC is still high with the edge trigger pending,
the counters are the wrapped images of `n`, the frame counter is still 0,
and the CPU is in its loop rotation with a well-formed PIA. -/
def C3Inv (n : Nat) (b : Bus) : Prop :=
  ∃ osc fcc : Nat, ∃ p : Pia, PiaWF p ∧
    b = ⟨⟨true, true, false, false, 0, 0, 0, 0, 0, 0,
          ⟨osc, n % 3, (n / 228) % 262, n % 228, fcc, 0⟩, zbytes, 0⟩,
        cpuPhase ((n + 2) / 3), p, loopRom⟩

theorem c3_inv_step (n : Nat) (b : Bus) (h : C3Inv n b) :
    ∃ b', Tia.cycle b = some b' ∧ C3Inv (n + 1) b' := by
  obtain ⟨osc, fcc, p, hwf, rfl⟩ := h
  have hrdy : ({ cpuPhase ((n + 2) / 3) with rdy := true } : Cpu) = cpuPhase ((n + 2) / 3) :=
    c3_phase_rdy ((n + 2) / 3)
  by_cases hd : n % 3 = 0
  · obtain ⟨q, hq, hqwf⟩ := PiaWF_step p hwf
    have hstep := c3_cpu_phase_step ((n + 2) / 3)
      (⟨true, true, false, false, 0, 0, 0, 0, 0, 0,
        ⟨osc, 0, (n / 228) % 262, n % 228, fcc + 1, 0⟩, zbytes, 0⟩ : Tia) p
    rw [hd]
    refine ⟨_, c3_tick_cpu osc ((n / 228) % 262) (n % 228) fcc
      (cpuPhase ((n + 2) / 3)) (cpuPhase ((n + 2) / 3 + 1)) p q hrdy hstep hq, ?_⟩
    refine ⟨osc + 1, fcc + 1, q, hqwf, ?_⟩
    rw [c3_osc_track n osc 0 ((n / 228) % 262) (n % 228) (fcc + 1) hd.symm rfl rfl]
    have he : (n + 1 + 2) / 3 = (n + 2) / 3 + 1 := by omega
    rw [he]
  · refine ⟨_, c3_tick_skip osc (n % 3) ((n / 228) % 262) (n % 228) fcc
      (cpuPhase ((n + 2) / 3)) p hd hrdy, ?_⟩
    refine ⟨osc + 1, fcc, p, hwf, ?_⟩
    rw [c3_osc_track n osc (n % 3) ((n / 228) % 262) (n % 228) fcc rfl rfl rfl]
    have he : (n + 1 + 2) / 3 = (n + 2) / 3 := by omega
    rw [he]

theorem c3_run (k : Nat) : ∀ n b, C3Inv n b →
    ∃ b', Bus.run k b = some b' ∧ C3Inv (n + k) b' := by
  induction k with
  | zero => exact fun n b h => ⟨b, rfl, h⟩
  | succ k ih =>
      intro n b h
      obtain ⟨b1, h1, hinv1⟩ := c3_inv_step n b h
      obtain ⟨b2, h2, hinv2⟩ := ih (n + 1) b1 hinv1
      refine ⟨b2, ?_, ?_⟩
      · show (Tia.cycle b).bind (stepRun Tia.cycle k) = some b2
        rw [h1, Option.some_bind]
        exact h2
      · have he : n + (k + 1) = n + 1 + k := by omega
        rw [he]
        exact hinv2

/-- C3 as stated is false. After the VSYNC rising-edge write (0x02 to TIA
register 0x00) the C3 machine runs exactly 228 × 262 × 3 oscillator ticks
of its `JMP $F000` loop; scanline and color clock indeed both read 0 (they
wrap on their own), but the frame counter still reads 0 — it has not
incremented, because the frame-reset branch in `Tia::cycle` fires only
once the VSYNC level has gone low again with the edge trigger still
latched, which never happens while VSYNC stays high. -/
theorem claim_C3_counterexample :
    ((Bus.write c3busPre 0x0000 0x02).bind (Bus.run (228 * 262 * 3))).map
        (fun b => (b.tia.cycles.frame_counter, b.tia.cycles.scanline, b.tia.cycles.color_clock))
      = some (0, 0, 0) := by
  rw [c3_edge_write, Option.some_bind]
  have h0 : C3Inv 0 (mkC3 ⟨0, 0, 0, 0, 0, 0⟩ cpuA0 Pia.default) :=
    ⟨0, 0, Pia.default, PiaWF_default, by rfl⟩
  obtain ⟨b', hrun, hinv⟩ := c3_run (228 * 262 * 3) 0 _ h0
  rw [hrun]
  obtain ⟨osc, fcc, p, hwf, rfl⟩ := hinv
  simp

/-- The C3 bus one tick before a potential frame reset, with the VSYNC
level still high and the edge trigger pending. -/
def c3busHigh : Bus :=
  ⟨⟨true, true, false, false, 0, 0, 0, 0, 0, 0, ⟨100, 1, 7, 50, 33, 0⟩, zbytes, 0⟩,
    cpuA0, Pia.default, loopRom⟩

/-- The same machine with the VSYNC level already driven low again (the
edge trigger still pending). -/
def c3busLow : Bus :=
  ⟨⟨false, true, false, false, 0, 0, 0, 0, 0, 0, ⟨100, 1, 7, 50, 33, 0⟩, zbytes, 0⟩,
    cpuA0, Pia.default, loopRom⟩

/-- C3 amended: the frame bookkeeping is edge-triggered but deferred until
the VSYNC level returns low. While VSYNC is held high the pending trigger
does nothing (frame counter stays 0, trigger stays latched); on the first
tick with VSYNC low the scanline and frame-CPU counters are reset to 0,
the frame counter increments, and the trigger clears — the color clock is
NOT reset (it keeps its wrapped value, here 51). -/
theorem claim_C3_frame_reset_on_vsync_low :
    (Tia.cycle c3busHigh).map (fun b => (b.tia.cycles.frame_counter, b.tia.cycles.scanline,
        b.tia.cycles.color_clock, b.tia.cycles.frame_cpu_counter, b.tia.vsync_trigger))
      = some (0, 7, 51, 33, true)
  ∧ (Tia.cycle c3busLow).map (fun b => (b.tia.cycles.frame_counter, b.tia.cycles.scanline,
        b.tia.cycles.color_clock, b.tia.cycles.frame_cpu_counter, b.tia.vsync_trigger))
      = some (1, 0, 51, 0, false) := by
  exact ⟨rfl, rfl⟩

/-! ## Claim C8: counter range invariants

The range invariant survives every `Tia::cycle`. Since `Cpu::cycle` can
write anywhere on the bus (including TIA registers), the proof needs that
no bus operation reachable from the CPU engine ever touches the
`CycleCounter` block: registers writes go through `Tia::write`, which only
updates latch/color/playfield fields. The lemmas below thread that fact
through every micro-operation and instruction of the CPU. -/

theorem snd_eq_of_pair_eq {α β : Type} (x : α × β) (a : α) (b : β)
    (h : x = (a, b)) : x.2 = b :=
  congrArg (fun w => w.2) h

theorem thd_eq_of_triple_eq {α β γ : Type} (x : α × β × γ) (a : α) (b : β) (c : γ)
    (h : x = (a, b, c)) : x.2.2 = c :=
  congrArg (fun w => w.2.2) h

/-- `Tia::write` never touches the cycle counters. -/
theorem tia_write_cycles (t : Tia) (a d : Nat) (t' : Tia)
    (h : Tia.write t a d = some t') : t'.cycles = t.cycles := by
  simp only [Tia.write] at h
  split_ifs at h <;> rw [← Option.some.inj h]

/-- `Bus::write` never touches the TIA cycle counters. -/
theorem bus_write_cycles (b : Bus) (a d : Nat) (b' : Bus)
    (h : Bus.write b a d = some b') : b'.tia.cycles = b.tia.cycles := by
  simp only [Bus.write] at h
  split_ifs at h
  · rw [Option.map_eq_some'] at h
    obtain ⟨t', hw, he⟩ := h
    rw [← he]
    exact tia_write_cycles b.tia a d t' hw
  · rw [Option.map_eq_some'] at h
    obtain ⟨x, hw, he⟩ := h
    rw [← he]
  · rw [Option.map_eq_some'] at h
    obtain ⟨x, hw, he⟩ := h
    rw [← he]
  · rw [Option.map_eq_some'] at h
    obtain ⟨x, hw, he⟩ := h
    rw [← he]

/-- `Bus::read` leaves the whole TIA state unchanged (its only side effect
is on the PIA). -/
theorem Bus.read_tia (b : Bus) (a v : Nat) (b' : Bus)
    (h : Bus.read b a = some (v, b')) : b'.tia = b.tia := by
  simp only [Bus.read] at h
  split_ifs at h
  · rw [Option.map_eq_some'] at h
    obtain ⟨x, hr, he⟩ := h
    rw [← snd_eq_of_pair_eq _ _ _ he]
  · rw [Option.map_eq_some'] at h
    obtain ⟨x, hr, he⟩ := h
    rw [← snd_eq_of_pair_eq _ _ _ he]
  · rw [Option.map_eq_some'] at h
    obtain ⟨x, hr, he⟩ := h
    rw [← snd_eq_of_pair_eq _ _ _ he]
  · rw [← snd_eq_of_pair_eq _ _ _ (Option.some.inj h)]

/-- `Cpu::fetch` leaves the TIA unchanged. -/
theorem fetch_tia (b : Bus) (v : Nat) (b' : Bus)
    (h : fetch b = some (v, b')) : b'.tia = b.tia := by
  simp only [fetch] at h
  rw [Option.bind_eq_some] at h
  obtain ⟨⟨v0, b0⟩, hrd, h⟩ := h
  dsimp only at h
  split_ifs at h
  rw [← snd_eq_of_pair_eq _ _ _ (Option.some.inj h)]
  exact Bus.read_tia b b.cpu.pc v0 b0 hrd

theorem stack_push_cycles (b : Bus) (d : Nat) (b' : Bus)
    (h : stack_push b d = some b') : b'.tia.cycles = b.tia.cycles := by
  simp only [stack_push] at h
  rw [Option.map_eq_some'] at h
  obtain ⟨b0, hw, he⟩ := h
  rw [← he]
  have hx := bus_write_cycles _ _ _ _ hw
  exact hx

theorem stack_pop_tia (b : Bus) (v : Nat) (b' : Bus)
    (h : stack_pop b = some (v, b')) : b'.tia = b.tia := by
  simp only [stack_pop] at h
  have hx := Bus.read_tia _ _ _ _ h
  exact hx

/-- `effective_addr` performs only fetches and CPU-register bookkeeping. -/
theorem effective_addr_tia (p : InstructionProcedure) (b : Bus) (r : Option Nat)
    (p' : InstructionProcedure) (b' : Bus)
    (h : effective_addr p b = some (r, p', b')) : b'.tia = b.tia := by
  obtain ⟨d0, f0, m0, c0, t0, t1, ta⟩ := p
  cases m0 <;> simp only [effective_addr] at h
  case Immediate =>
    split_ifs at h
    · rw [← thd_eq_of_triple_eq _ _ _ _ (Option.some.inj h)]
    · rw [← thd_eq_of_triple_eq _ _ _ _ (Option.some.inj h)]
  case Zero =>
    split_ifs at h
    · rw [Option.map_eq_some'] at h
      obtain ⟨⟨v0, b0⟩, hf, he⟩ := h
      try dsimp only at he
      rw [← thd_eq_of_triple_eq _ _ _ _ he]
      exact fetch_tia _ _ _ hf
    · rw [← thd_eq_of_triple_eq _ _ _ _ (Option.some.inj h)]
    · rw [← thd_eq_of_triple_eq _ _ _ _ (Option.some.inj h)]
  case Absolute =>
    split_ifs at h
    · rw [Option.map_eq_some'] at h
      obtain ⟨⟨v0, b0⟩, hf, he⟩ := h
      try dsimp only at he
      rw [← thd_eq_of_triple_eq _ _ _ _ he]
      exact fetch_tia _ _ _ hf
    · rw [Option.map_eq_some'] at h
      obtain ⟨⟨v0, b0⟩, hf, he⟩ := h
      try dsimp only at he
      rw [← thd_eq_of_triple_eq _ _ _ _ he]
      exact fetch_tia _ _ _ hf
    · rw [← thd_eq_of_triple_eq _ _ _ _ (Option.some.inj h)]
    · rw [← thd_eq_of_triple_eq _ _ _ _ (Option.some.inj h)]
  case ZeroX =>
    split_ifs at h <;> first
      | (rw [Option.map_eq_some'] at h
         obtain ⟨⟨v0, b0⟩, hf, he⟩ := h
         rw [← thd_eq_of_triple_eq _ _ _ _ he]
         exact fetch_tia _ _ _ hf)
      | rw [← thd_eq_of_triple_eq _ _ _ _ (Option.some.inj h)]
  case ZeroY =>
    split_ifs at h <;> first
      | (rw [Option.map_eq_some'] at h
         obtain ⟨⟨v0, b0⟩, hf, he⟩ := h
         rw [← thd_eq_of_triple_eq _ _ _ _ he]
         exact fetch_tia _ _ _ hf)
      | rw [← thd_eq_of_triple_eq _ _ _ _ (Option.some.inj h)]
  all_goals exact Option.noConfusion h

/-- `read_modify_write` can write to TIA registers, but never to the cycle
counters. -/
theorem read_modify_write_cycles (p : InstructionProcedure) (b : Bus) (r : Option Nat)
    (p' : InstructionProcedure) (b' : Bus)
    (h : read_modify_write p b = some (r, p', b')) : b'.tia.cycles = b.tia.cycles := by
  obtain ⟨d0, f0, m0, c0, t0, t1, ta⟩ := p
  cases m0 <;> simp only [read_modify_write] at h
  case Zero =>
    split_ifs at h
    · rw [Option.map_eq_some'] at h
      obtain ⟨⟨v0, b0⟩, hf, he⟩ := h
      try dsimp only at he
      rw [← thd_eq_of_triple_eq _ _ _ _ he]
      exact congrArg (fun t => t.cycles) (fetch_tia _ _ _ hf)
    · rw [Option.map_eq_some'] at h
      obtain ⟨⟨v0, b0⟩, hr, he⟩ := h
      try dsimp only at he
      rw [← thd_eq_of_triple_eq _ _ _ _ he]
      exact congrArg (fun t => t.cycles) (Bus.read_tia _ _ _ _ hr)
    · rw [Option.map_eq_some'] at h
      obtain ⟨b0, hw, he⟩ := h
      try dsimp only at he
      rw [← thd_eq_of_triple_eq _ _ _ _ he]
      exact bus_write_cycles _ _ _ _ hw
    · rw [← thd_eq_of_triple_eq _ _ _ _ (Option.some.inj h)]
    · rw [← thd_eq_of_triple_eq _ _ _ _ (Option.some.inj h)]
  case Absolute =>
    split_ifs at h
    · rw [Option.map_eq_some'] at h
      obtain ⟨⟨v0, b0⟩, hf, he⟩ := h
      try dsimp only at he
      rw [← thd_eq_of_triple_eq _ _ _ _ he]
      exact congrArg (fun t => t.cycles) (fetch_tia _ _ _ hf)
    · rw [Option.map_eq_some'] at h
      obtain ⟨⟨v0, b0⟩, hf, he⟩ := h
      try dsimp only at he
      rw [← thd_eq_of_triple_eq _ _ _ _ he]
      exact congrArg (fun t => t.cycles) (fetch_tia _ _ _ hf)
    · rw [Option.map_eq_some'] at h
      obtain ⟨⟨v0, b0⟩, hr, he⟩ := h
      try dsimp only at he
      rw [← thd_eq_of_triple_eq _ _ _ _ he]
      exact congrArg (fun t => t.cycles) (Bus.read_tia _ _ _ _ hr)
    · rw [Option.map_eq_some'] at h
      obtain ⟨b0, hw, he⟩ := h
      try dsimp only at he
      rw [← thd_eq_of_triple_eq _ _ _ _ he]
      exact bus_write_cycles _ _ _ _ hw
    · rw [← thd_eq_of_triple_eq _ _ _ _ (Option.some.inj h)]
    · rw [← thd_eq_of_triple_eq _ _ _ _ (Option.some.inj h)]
  case ZeroX =>
    split_ifs at h
    · rw [Option.map_eq_some'] at h
      obtain ⟨⟨v0, b0⟩, hf, he⟩ := h
      try dsimp only at he
      rw [← thd_eq_of_triple_eq _ _ _ _ he]
      exact congrArg (fun t => t.cycles) (fetch_tia _ _ _ hf)
    · rw [Option.map_eq_some'] at h
      obtain ⟨⟨v0, b0⟩, hr, he⟩ := h
      try dsimp only at he
      rw [← thd_eq_of_triple_eq _ _ _ _ he]
      exact congrArg (fun t => t.cycles) (Bus.read_tia _ _ _ _ hr)
    · rw [Option.map_eq_some'] at h
      obtain ⟨⟨v0, b0⟩, hr, he⟩ := h
      try dsimp only at he
      rw [← thd_eq_of_triple_eq _ _ _ _ he]
      exact congrArg (fun t => t.cycles) (Bus.read_tia _ _ _ _ hr)
    · rw [Option.map_eq_some'] at h
      obtain ⟨b0, hw, he⟩ := h
      try dsimp only at he
      rw [← thd_eq_of_triple_eq _ _ _ _ he]
      exact bus_write_cycles _ _ _ _ hw
    · rw [← thd_eq_of_triple_eq _ _ _ _ (Option.some.inj h)]
    · rw [← thd_eq_of_triple_eq _ _ _ _ (Option.some.inj h)]
  case AbsoluteX =>
    split_ifs at h
    · rw [Option.map_eq_some'] at h
      obtain ⟨⟨v0, b0⟩, hf, he⟩ := h
      try dsimp only at he
      rw [← thd_eq_of_triple_eq _ _ _ _ he]
      exact congrArg (fun t => t.cycles) (fetch_tia _ _ _ hf)
    · rw [Option.map_eq_some'] at h
      obtain ⟨⟨v0, b0⟩, hf, he⟩ := h
      try dsimp only at he
      rw [← thd_eq_of_triple_eq _ _ _ _ he]
      exact congrArg (fun t => t.cycles) (fetch_tia _ _ _ hf)
    · rw [Option.map_eq_some'] at h
      obtain ⟨⟨v0, b0⟩, hr, he⟩ := h
      try dsimp only at he
      rw [← thd_eq_of_triple_eq _ _ _ _ he]
      exact congrArg (fun t => t.cycles) (Bus.read_tia _ _ _ _ hr)
    · rw [Option.map_eq_some'] at h
      obtain ⟨⟨v0, b0⟩, hr, he⟩ := h
      try dsimp only at he
      rw [← thd_eq_of_triple_eq _ _ _ _ he]
      exact congrArg (fun t => t.cycles) (Bus.read_tia _ _ _ _ hr)
    · rw [← thd_eq_of_triple_eq _ _ _ _ (Option.some.inj h)]
    · rw [← thd_eq_of_triple_eq _ _ _ _ (Option.some.inj h)]
  all_goals exact Option.noConfusion h

theorem finish_tia (p : InstructionProcedure) (b : Bus)
    (p' : InstructionProcedure) (b' : Bus)
    (h : finish p b = some (p', b')) : b'.tia = b.tia := by
  simp only [finish] at h
  rw [Option.map_eq_some'] at h
  obtain ⟨⟨v0, b0⟩, hf, he⟩ := h
  dsimp only at he
  rw [← snd_eq_of_pair_eq _ _ _ he]
  exact fetch_tia b v0 b0 hf

theorem branch_tia (p : InstructionProcedure) (b : Bus) (c : Bool)
    (p' : InstructionProcedure) (b' : Bus)
    (h : branch p b c = some (p', b')) : b'.tia = b.tia := by
  rw [branch] at h
  by_cases h2 : p.cycle = 2
  · rw [if_pos h2] at h
    rw [Option.bind_eq_some] at h
    obtain ⟨⟨v0, b0⟩, hf, h⟩ := h
    dsimp only at h
    split at h
    · have hx := finish_tia _ _ _ _ h
      have hy := fetch_tia _ _ _ hf
      exact hx.trans hy
    · rw [← snd_eq_of_pair_eq _ _ _ (Option.some.inj h)]
      exact fetch_tia _ _ _ hf
  · rw [if_neg h2] at h
    by_cases h3 : p.cycle = 3
    · rw [if_pos h3] at h
      dsimp only at h
      set S : Int := (if b.cpu.pc < 0x8000 then (b.cpu.pc : Int) else (b.cpu.pc : Int) - 65536)
        + (if p.tmp0 < 0x80 then (p.tmp0 : Int) else (p.tmp0 : Int) - 256) with hS
      by_cases hov : S < -32768 ∨ 32767 < S
      · rw [if_pos hov] at h
        exact Option.noConfusion h
      · rw [if_neg hov] at h
        by_cases hpg : b.cpu.pc &&& 0xFF00 = (if S < 0 then S + 65536 else S).toNat &&& 0xFF00
        · rw [if_pos hpg] at h
          have hx := finish_tia _ _ _ _ h
          exact hx
        · rw [if_neg hpg] at h
          rw [← snd_eq_of_pair_eq _ _ _ (Option.some.inj h)]
    · rw [if_neg h3] at h
      by_cases h4 : p.cycle = 4
      · rw [if_pos h4] at h
        have hx := finish_tia _ _ _ _ h
        exact hx
      · rw [if_neg h4] at h
        rw [← snd_eq_of_pair_eq _ _ _ (Option.some.inj h)]

/-! ### Per-instruction preservation of the TIA cycle counters -/

theorem cld_tia (p : InstructionProcedure) (b : Bus) (p' : InstructionProcedure)
    (b' : Bus) (h : cld p b = some (p', b')) : b'.tia = b.tia := by
  simp only [cld] at h
  split_ifs at h
  · have hx := finish_tia _ _ _ _ h
    rw [hx]
  · rw [← snd_eq_of_pair_eq _ _ _ (Option.some.inj h)]

theorem sec_tia (p : InstructionProcedure) (b : Bus) (p' : InstructionProcedure)
    (b' : Bus) (h : sec p b = some (p', b')) : b'.tia = b.tia := by
  simp only [sec] at h
  split_ifs at h
  · have hx := finish_tia _ _ _ _ h
    rw [hx]
  · rw [← snd_eq_of_pair_eq _ _ _ (Option.some.inj h)]

theorem sed_tia (p : InstructionProcedure) (b : Bus) (p' : InstructionProcedure)
    (b' : Bus) (h : sed p b = some (p', b')) : b'.tia = b.tia := by
  simp only [sed] at h
  split_ifs at h
  · have hx := finish_tia _ _ _ _ h
    rw [hx]
  · rw [← snd_eq_of_pair_eq _ _ _ (Option.some.inj h)]

theorem sei_tia (p : InstructionProcedure) (b : Bus) (p' : InstructionProcedure)
    (b' : Bus) (h : sei p b = some (p', b')) : b'.tia = b.tia := by
  simp only [sei] at h
  split_ifs at h
  · have hx := finish_tia _ _ _ _ h
    rw [hx]
  · rw [← snd_eq_of_pair_eq _ _ _ (Option.some.inj h)]

theorem dex_tia (p : InstructionProcedure) (b : Bus) (p' : InstructionProcedure)
    (b' : Bus) (h : dex p b = some (p', b')) : b'.tia = b.tia := by
  simp only [dex] at h
  split_ifs at h
  · have hx := finish_tia _ _ _ _ h
    rw [hx]
  · rw [← snd_eq_of_pair_eq _ _ _ (Option.some.inj h)]

theorem dey_tia (p : InstructionProcedure) (b : Bus) (p' : InstructionProcedure)
    (b' : Bus) (h : dey p b = some (p', b')) : b'.tia = b.tia := by
  simp only [dey] at h
  split_ifs at h
  · have hx := finish_tia _ _ _ _ h
    rw [hx]
  · rw [← snd_eq_of_pair_eq _ _ _ (Option.some.inj h)]

theorem inx_tia (p : InstructionProcedure) (b : Bus) (p' : InstructionProcedure)
    (b' : Bus) (h : inx p b = some (p', b')) : b'.tia = b.tia := by
  simp only [inx] at h
  split_ifs at h
  · have hx := finish_tia _ _ _ _ h
    rw [hx]
  · rw [← snd_eq_of_pair_eq _ _ _ (Option.some.inj h)]

theorem iny_tia (p : InstructionProcedure) (b : Bus) (p' : InstructionProcedure)
    (b' : Bus) (h : iny p b = some (p', b')) : b'.tia = b.tia := by
  simp only [iny] at h
  split_ifs at h
  · have hx := finish_tia _ _ _ _ h
    rw [hx]
  · rw [← snd_eq_of_pair_eq _ _ _ (Option.some.inj h)]

theorem tax_tia (p : InstructionProcedure) (b : Bus) (p' : InstructionProcedure)
    (b' : Bus) (h : tax p b = some (p', b')) : b'.tia = b.tia := by
  simp only [tax] at h
  split_ifs at h
  · have hx := finish_tia _ _ _ _ h
    rw [hx]
  · rw [← snd_eq_of_pair_eq _ _ _ (Option.some.inj h)]

theorem tay_tia (p : InstructionProcedure) (b : Bus) (p' : InstructionProcedure)
    (b' : Bus) (h : tay p b = some (p', b')) : b'.tia = b.tia := by
  simp only [tay] at h
  split_ifs at h
  · have hx := finish_tia _ _ _ _ h
    rw [hx]
  · rw [← snd_eq_of_pair_eq _ _ _ (Option.some.inj h)]

theorem tsx_tia (p : InstructionProcedure) (b : Bus) (p' : InstructionProcedure)
    (b' : Bus) (h : tsx p b = some (p', b')) : b'.tia = b.tia := by
  simp only [tsx] at h
  split_ifs at h
  · have hx := finish_tia _ _ _ _ h
    rw [hx]
  · rw [← snd_eq_of_pair_eq _ _ _ (Option.some.inj h)]

theorem txa_tia (p : InstructionProcedure) (b : Bus) (p' : InstructionProcedure)
    (b' : Bus) (h : txa p b = some (p', b')) : b'.tia = b.tia := by
  simp only [txa] at h
  split_ifs at h
  · have hx := finish_tia _ _ _ _ h
    rw [hx]
  · rw [← snd_eq_of_pair_eq _ _ _ (Option.some.inj h)]

theorem txs_tia (p : InstructionProcedure) (b : Bus) (p' : InstructionProcedure)
    (b' : Bus) (h : txs p b = some (p', b')) : b'.tia = b.tia := by
  simp only [txs] at h
  split_ifs at h
  · have hx := finish_tia _ _ _ _ h
    rw [hx]
  · rw [← snd_eq_of_pair_eq _ _ _ (Option.some.inj h)]

theorem tya_tia (p : InstructionProcedure) (b : Bus) (p' : InstructionProcedure)
    (b' : Bus) (h : tya p b = some (p', b')) : b'.tia = b.tia := by
  simp only [tya] at h
  split_ifs at h
  · have hx := finish_tia _ _ _ _ h
    rw [hx]
  · rw [← snd_eq_of_pair_eq _ _ _ (Option.some.inj h)]

theorem asl_cycles (p : InstructionProcedure) (b : Bus) (p' : InstructionProcedure)
    (b' : Bus) (h : asl p b = some (p', b')) : b'.tia.cycles = b.tia.cycles := by
  obtain ⟨d0, f0, m0, c0, t0, t1, ta⟩ := p
  cases m0 <;> simp only [asl] at h
  case Accumulator =>
    split_ifs at h <;> first
      | (have hx := finish_tia _ _ _ _ h
         rw [hx])
      | rw [← snd_eq_of_pair_eq _ _ _ (Option.some.inj h)]
  all_goals (
    rw [Option.bind_eq_some] at h
    obtain ⟨⟨r1, q1, c1⟩, hrmw, h⟩ := h
    dsimp only at h
    cases r1 with
    | none =>
        rw [← snd_eq_of_pair_eq _ _ _ (Option.some.inj h)]
        have hx := read_modify_write_cycles _ _ _ _ _ hrmw
        exact hx
    | some addr =>
        dsimp only at h
        rw [Option.map_eq_some'] at h
        obtain ⟨b2, hw, he⟩ := h
        try dsimp only at he
        rw [← snd_eq_of_pair_eq _ _ _ he]
        have hx := bus_write_cycles _ _ _ _ hw
        have hy := read_modify_write_cycles _ _ _ _ _ hrmw
        exact hx.trans hy)

theorem lsr_cycles (p : InstructionProcedure) (b : Bus) (p' : InstructionProcedure)
    (b' : Bus) (h : lsr p b = some (p', b')) : b'.tia.cycles = b.tia.cycles := by
  obtain ⟨d0, f0, m0, c0, t0, t1, ta⟩ := p
  cases m0 <;> simp only [lsr] at h
  case Accumulator =>
    split_ifs at h <;> first
      | (have hx := finish_tia _ _ _ _ h
         rw [hx])
      | rw [← snd_eq_of_pair_eq _ _ _ (Option.some.inj h)]
  all_goals (
    rw [Option.bind_eq_some] at h
    obtain ⟨⟨r1, q1, c1⟩, hrmw, h⟩ := h
    dsimp only at h
    cases r1 with
    | none =>
        rw [← snd_eq_of_pair_eq _ _ _ (Option.some.inj h)]
        have hx := read_modify_write_cycles _ _ _ _ _ hrmw
        exact hx
    | some addr =>
        dsimp only at h
        rw [Option.map_eq_some'] at h
        obtain ⟨b2, hw, he⟩ := h
        try dsimp only at he
        rw [← snd_eq_of_pair_eq _ _ _ he]
        have hx := bus_write_cycles _ _ _ _ hw
        have hy := read_modify_write_cycles _ _ _ _ _ hrmw
        exact hx.trans hy)

theorem rol_cycles (p : InstructionProcedure) (b : Bus) (p' : InstructionProcedure)
    (b' : Bus) (h : rol p b = some (p', b')) : b'.tia.cycles = b.tia.cycles := by
  obtain ⟨d0, f0, m0, c0, t0, t1, ta⟩ := p
  cases m0 <;> simp only [rol] at h
  case Accumulator =>
    split_ifs at h <;> first
      | (have hx := finish_tia _ _ _ _ h
         rw [hx])
      | rw [← snd_eq_of_pair_eq _ _ _ (Option.some.inj h)]
  all_goals (
    rw [Option.bind_eq_some] at h
    obtain ⟨⟨r1, q1, c1⟩, hrmw, h⟩ := h
    dsimp only at h
    cases r1 with
    | none =>
        rw [← snd_eq_of_pair_eq _ _ _ (Option.some.inj h)]
        have hx := read_modify_write_cycles _ _ _ _ _ hrmw
        exact hx
    | some addr =>
        dsimp only at h
        rw [Option.map_eq_some'] at h
        obtain ⟨b2, hw, he⟩ := h
        try dsimp only at he
        rw [← snd_eq_of_pair_eq _ _ _ he]
        have hx := bus_write_cycles _ _ _ _ hw
        have hy := read_modify_write_cycles _ _ _ _ _ hrmw
        exact hx.trans hy)

theorem ror_cycles (p : InstructionProcedure) (b : Bus) (p' : InstructionProcedure)
    (b' : Bus) (h : ror p b = some (p', b')) : b'.tia.cycles = b.tia.cycles := by
  obtain ⟨d0, f0, m0, c0, t0, t1, ta⟩ := p
  cases m0 <;> simp only [ror] at h
  case Accumulator =>
    split_ifs at h <;> first
      | (have hx := finish_tia _ _ _ _ h
         rw [hx])
      | rw [← snd_eq_of_pair_eq _ _ _ (Option.some.inj h)]
  all_goals (
    rw [Option.bind_eq_some] at h
    obtain ⟨⟨r1, q1, c1⟩, hrmw, h⟩ := h
    dsimp only at h
    cases r1 with
    | none =>
        rw [← snd_eq_of_pair_eq _ _ _ (Option.some.inj h)]
        have hx := read_modify_write_cycles _ _ _ _ _ hrmw
        exact hx
    | some addr =>
        dsimp only at h
        rw [Option.map_eq_some'] at h
        obtain ⟨b2, hw, he⟩ := h
        try dsimp only at he
        rw [← snd_eq_of_pair_eq _ _ _ he]
        have hx := bus_write_cycles _ _ _ _ hw
        have hy := read_modify_write_cycles _ _ _ _ _ hrmw
        exact hx.trans hy)

theorem bcc_tia (p : InstructionProcedure) (b : Bus) (p' : InstructionProcedure)
    (b' : Bus) (h : bcc p b = some (p', b')) : b'.tia = b.tia := by
  simp only [bcc] at h
  exact branch_tia _ _ _ _ _ h

theorem bcs_tia (p : InstructionProcedure) (b : Bus) (p' : InstructionProcedure)
    (b' : Bus) (h : bcs p b = some (p', b')) : b'.tia = b.tia := by
  simp only [bcs] at h
  exact branch_tia _ _ _ _ _ h

theorem beq_tia (p : InstructionProcedure) (b : Bus) (p' : InstructionProcedure)
    (b' : Bus) (h : beq p b = some (p', b')) : b'.tia = b.tia := by
  simp only [beq] at h
  exact branch_tia _ _ _ _ _ h

theorem bmi_tia (p : InstructionProcedure) (b : Bus) (p' : InstructionProcedure)
    (b' : Bus) (h : bmi p b = some (p', b')) : b'.tia = b.tia := by
  simp only [bmi] at h
  exact branch_tia _ _ _ _ _ h

theorem bne_tia (p : InstructionProcedure) (b : Bus) (p' : InstructionProcedure)
    (b' : Bus) (h : bne p b = some (p', b')) : b'.tia = b.tia := by
  simp only [bne] at h
  exact branch_tia _ _ _ _ _ h

theorem bpl_tia (p : InstructionProcedure) (b : Bus) (p' : InstructionProcedure)
    (b' : Bus) (h : bpl p b = some (p', b')) : b'.tia = b.tia := by
  simp only [bpl] at h
  exact branch_tia _ _ _ _ _ h

theorem bvc_tia (p : InstructionProcedure) (b : Bus) (p' : InstructionProcedure)
    (b' : Bus) (h : bvc p b = some (p', b')) : b'.tia = b.tia := by
  simp only [bvc] at h
  exact branch_tia _ _ _ _ _ h

theorem bvs_tia (p : InstructionProcedure) (b : Bus) (p' : InstructionProcedure)
    (b' : Bus) (h : bvs p b = some (p', b')) : b'.tia = b.tia := by
  simp only [bvs] at h
  exact branch_tia _ _ _ _ _ h

theorem eor_tia (p : InstructionProcedure) (b : Bus) (p' : InstructionProcedure)
    (b' : Bus) (h : eor p b = some (p', b')) : b'.tia = b.tia := by
  simp only [eor] at h
  rw [Option.bind_eq_some] at h
  obtain ⟨⟨r1, q1, c1⟩, hea, h⟩ := h
  dsimp only at h
  cases r1 with
  | none =>
      rw [← snd_eq_of_pair_eq _ _ _ (Option.some.inj h)]
      have hx := effective_addr_tia _ _ _ _ _ hea
      exact hx
  | some addr =>
      dsimp only at h
      rw [Option.bind_eq_some] at h
      obtain ⟨⟨v0, b0⟩, hrd, h⟩ := h
      dsimp only at h
      have hx := finish_tia _ _ _ _ h
      have hy := Bus.read_tia _ _ _ _ hrd
      have hz := effective_addr_tia _ _ _ _ _ hea
      rw [hx]
      exact hy.trans hz

theorem lda_tia (p : InstructionProcedure) (b : Bus) (p' : InstructionProcedure)
    (b' : Bus) (h : lda p b = some (p', b')) : b'.tia = b.tia := by
  simp only [lda] at h
  rw [Option.bind_eq_some] at h
  obtain ⟨⟨r1, q1, c1⟩, hea, h⟩ := h
  dsimp only at h
  cases r1 with
  | none =>
      rw [← snd_eq_of_pair_eq _ _ _ (Option.some.inj h)]
      have hx := effective_addr_tia _ _ _ _ _ hea
      exact hx
  | some addr =>
      dsimp only at h
      rw [Option.bind_eq_some] at h
      obtain ⟨⟨v0, b0⟩, hrd, h⟩ := h
      dsimp only at h
      have hx := finish_tia _ _ _ _ h
      have hy := Bus.read_tia _ _ _ _ hrd
      have hz := effective_addr_tia _ _ _ _ _ hea
      rw [hx]
      exact hy.trans hz

theorem ldx_tia (p : InstructionProcedure) (b : Bus) (p' : InstructionProcedure)
    (b' : Bus) (h : ldx p b = some (p', b')) : b'.tia = b.tia := by
  simp only [ldx] at h
  rw [Option.bind_eq_some] at h
  obtain ⟨⟨r1, q1, c1⟩, hea, h⟩ := h
  dsimp only at h
  cases r1 with
  | none =>
      rw [← snd_eq_of_pair_eq _ _ _ (Option.some.inj h)]
      have hx := effective_addr_tia _ _ _ _ _ hea
      exact hx
  | some addr =>
      dsimp only at h
      rw [Option.bind_eq_some] at h
      obtain ⟨⟨v0, b0⟩, hrd, h⟩ := h
      dsimp only at h
      have hx := finish_tia _ _ _ _ h
      have hy := Bus.read_tia _ _ _ _ hrd
      have hz := effective_addr_tia _ _ _ _ _ hea
      rw [hx]
      exact hy.trans hz

theorem ldy_tia (p : InstructionProcedure) (b : Bus) (p' : InstructionProcedure)
    (b' : Bus) (h : ldy p b = some (p', b')) : b'.tia = b.tia := by
  simp only [ldy] at h
  rw [Option.bind_eq_some] at h
  obtain ⟨⟨r1, q1, c1⟩, hea, h⟩ := h
  dsimp only at h
  cases r1 with
  | none =>
      rw [← snd_eq_of_pair_eq _ _ _ (Option.some.inj h)]
      have hx := effective_addr_tia _ _ _ _ _ hea
      exact hx
  | some addr =>
      dsimp only at h
      rw [Option.bind_eq_some] at h
      obtain ⟨⟨v0, b0⟩, hrd, h⟩ := h
      dsimp only at h
      have hx := finish_tia _ _ _ _ h
      have hy := Bus.read_tia _ _ _ _ hrd
      have hz := effective_addr_tia _ _ _ _ _ hea
      rw [hx]
      exact hy.trans hz

theorem sbc_tia (p : InstructionProcedure) (b : Bus) (p' : InstructionProcedure)
    (b' : Bus) (h : sbc p b = some (p', b')) : b'.tia = b.tia := by
  simp only [sbc] at h
  rw [Option.bind_eq_some] at h
  obtain ⟨⟨r1, q1, c1⟩, hea, h⟩ := h
  dsimp only at h
  cases r1 with
  | none =>
      rw [← snd_eq_of_pair_eq _ _ _ (Option.some.inj h)]
      have hx := effective_addr_tia _ _ _ _ _ hea
      exact hx
  | some addr =>
      dsimp only at h
      rw [Option.bind_eq_some] at h
      obtain ⟨⟨v0, b0⟩, hrd, h⟩ := h
      dsimp only at h
      split_ifs at h <;>
        (have hx := finish_tia _ _ _ _ h
         have hy := Bus.read_tia _ _ _ _ hrd
         have hz := effective_addr_tia _ _ _ _ _ hea
         rw [hx]
         exact hy.trans hz)

theorem sta_cycles (p : InstructionProcedure) (b : Bus) (p' : InstructionProcedure)
    (b' : Bus) (h : sta p b = some (p', b')) : b'.tia.cycles = b.tia.cycles := by
  simp only [sta] at h
  rw [Option.bind_eq_some] at h
  obtain ⟨⟨r1, q1, c1⟩, hea, h⟩ := h
  dsimp only at h
  cases r1 with
  | none =>
      rw [← snd_eq_of_pair_eq _ _ _ (Option.some.inj h)]
      have hx := effective_addr_tia _ _ _ _ _ hea
      exact congrArg (fun t => t.cycles) hx
  | some addr =>
      dsimp only at h
      rw [Option.map_eq_some'] at h
      obtain ⟨b2, hw, he⟩ := h
      try dsimp only at he
      rw [← snd_eq_of_pair_eq _ _ _ he]
      have hx := bus_write_cycles _ _ _ _ hw
      have hy := effective_addr_tia _ _ _ _ _ hea
      exact hx.trans (congrArg (fun t => t.cycles) hy)

theorem stx_cycles (p : InstructionProcedure) (b : Bus) (p' : InstructionProcedure)
    (b' : Bus) (h : stx p b = some (p', b')) : b'.tia.cycles = b.tia.cycles := by
  simp only [stx] at h
  rw [Option.bind_eq_some] at h
  obtain ⟨⟨r1, q1, c1⟩, hea, h⟩ := h
  dsimp only at h
  cases r1 with
  | none =>
      rw [← snd_eq_of_pair_eq _ _ _ (Option.some.inj h)]
      have hx := effective_addr_tia _ _ _ _ _ hea
      exact congrArg (fun t => t.cycles) hx
  | some addr =>
      dsimp only at h
      rw [Option.map_eq_some'] at h
      obtain ⟨b2, hw, he⟩ := h
      try dsimp only at he
      rw [← snd_eq_of_pair_eq _ _ _ he]
      have hx := bus_write_cycles _ _ _ _ hw
      have hy := effective_addr_tia _ _ _ _ _ hea
      exact hx.trans (congrArg (fun t => t.cycles) hy)

theorem sty_cycles (p : InstructionProcedure) (b : Bus) (p' : InstructionProcedure)
    (b' : Bus) (h : sty p b = some (p', b')) : b'.tia.cycles = b.tia.cycles := by
  simp only [sty] at h
  rw [Option.bind_eq_some] at h
  obtain ⟨⟨r1, q1, c1⟩, hea, h⟩ := h
  dsimp only at h
  cases r1 with
  | none =>
      rw [← snd_eq_of_pair_eq _ _ _ (Option.some.inj h)]
      have hx := effective_addr_tia _ _ _ _ _ hea
      exact congrArg (fun t => t.cycles) hx
  | some addr =>
      dsimp only at h
      rw [Option.map_eq_some'] at h
      obtain ⟨b2, hw, he⟩ := h
      try dsimp only at he
      rw [← snd_eq_of_pair_eq _ _ _ he]
      have hx := bus_write_cycles _ _ _ _ hw
      have hy := effective_addr_tia _ _ _ _ _ hea
      exact hx.trans (congrArg (fun t => t.cycles) hy)

theorem jmp_tia (p : InstructionProcedure) (b : Bus) (p' : InstructionProcedure)
    (b' : Bus) (h : jmp p b = some (p', b')) : b'.tia = b.tia := by
  obtain ⟨d0, f0, m0, c0, t0, t1, ta⟩ := p
  cases m0 <;> simp only [jmp] at h
  case Absolute =>
    split_ifs at h
    · rw [Option.map_eq_some'] at h
      obtain ⟨⟨v0, b0⟩, hf, he⟩ := h
      try dsimp only at he
      rw [← snd_eq_of_pair_eq _ _ _ he]
      exact fetch_tia _ _ _ hf
    · rw [Option.bind_eq_some] at h
      obtain ⟨⟨v0, b0⟩, hrd, h⟩ := h
      dsimp only at h
      have hx := finish_tia _ _ _ _ h
      have hy := Bus.read_tia _ _ _ _ hrd
      rw [hx]
      exact hy
    · rw [← snd_eq_of_pair_eq _ _ _ (Option.some.inj h)]
  case Indirect =>
    split_ifs at h
    · rw [Option.map_eq_some'] at h
      obtain ⟨⟨v0, b0⟩, hf, he⟩ := h
      try dsimp only at he
      rw [← snd_eq_of_pair_eq _ _ _ he]
      exact fetch_tia _ _ _ hf
    · rw [Option.map_eq_some'] at h
      obtain ⟨⟨v0, b0⟩, hf, he⟩ := h
      try dsimp only at he
      rw [← snd_eq_of_pair_eq _ _ _ he]
      exact fetch_tia _ _ _ hf
    · rw [Option.map_eq_some'] at h
      obtain ⟨⟨v0, b0⟩, hrd, he⟩ := h
      try dsimp only at he
      rw [← snd_eq_of_pair_eq _ _ _ he]
      have hy := Bus.read_tia _ _ _ _ hrd
      exact hy
    · rw [Option.bind_eq_some] at h
      obtain ⟨⟨v0, b0⟩, hrd, h⟩ := h
      dsimp only at h
      have hx := finish_tia _ _ _ _ h
      have hy := Bus.read_tia _ _ _ _ hrd
      rw [hx]
      exact hy
    · rw [← snd_eq_of_pair_eq _ _ _ (Option.some.inj h)]
  all_goals exact Option.noConfusion h

theorem jsr_cycles (p : InstructionProcedure) (b : Bus) (p' : InstructionProcedure)
    (b' : Bus) (h : jsr p b = some (p', b')) : b'.tia.cycles = b.tia.cycles := by
  simp only [jsr] at h
  split_ifs at h
  · rw [Option.map_eq_some'] at h
    obtain ⟨⟨v0, b0⟩, hf, he⟩ := h
    try dsimp only at he
    rw [← snd_eq_of_pair_eq _ _ _ he]
    exact congrArg (fun t => t.cycles) (fetch_tia _ _ _ hf)
  · rw [Option.map_eq_some'] at h
    obtain ⟨⟨v0, b0⟩, hrd, he⟩ := h
    try dsimp only at he
    rw [← snd_eq_of_pair_eq _ _ _ he]
    exact congrArg (fun t => t.cycles) (Bus.read_tia _ _ _ _ hrd)
  · rw [Option.map_eq_some'] at h
    obtain ⟨b0, hp, he⟩ := h
    try dsimp only at he
    rw [← snd_eq_of_pair_eq _ _ _ he]
    exact stack_push_cycles _ _ _ hp
  · rw [Option.map_eq_some'] at h
    obtain ⟨b0, hp, he⟩ := h
    try dsimp only at he
    rw [← snd_eq_of_pair_eq _ _ _ he]
    exact stack_push_cycles _ _ _ hp
  · rw [Option.bind_eq_some] at h
    obtain ⟨⟨v0, b0⟩, hf, h⟩ := h
    dsimp only at h
    have hx := finish_tia _ _ _ _ h
    have hy := fetch_tia _ _ _ hf
    rw [hx]
    exact congrArg (fun t => t.cycles) hy
  · rw [← snd_eq_of_pair_eq _ _ _ (Option.some.inj h)]

/-- Dispatch: no implemented instruction ever touches the TIA cycle
counters. -/
theorem runInstr_cycles (f : Instr) (p p' : InstructionProcedure) (b b' : Bus)
    (h : runInstr f p b = some (p', b')) : b'.tia.cycles = b.tia.cycles := by
  cases f <;> simp only [runInstr] at h
  case asl => exact asl_cycles _ _ _ _ h
  case bcc => exact congrArg (fun t => t.cycles) (bcc_tia _ _ _ _ h)
  case bcs => exact congrArg (fun t => t.cycles) (bcs_tia _ _ _ _ h)
  case beq => exact congrArg (fun t => t.cycles) (beq_tia _ _ _ _ h)
  case bmi => exact congrArg (fun t => t.cycles) (bmi_tia _ _ _ _ h)
  case bne => exact congrArg (fun t => t.cycles) (bne_tia _ _ _ _ h)
  case bpl => exact congrArg (fun t => t.cycles) (bpl_tia _ _ _ _ h)
  case bvc => exact congrArg (fun t => t.cycles) (bvc_tia _ _ _ _ h)
  case bvs => exact congrArg (fun t => t.cycles) (bvs_tia _ _ _ _ h)
  case cld => exact congrArg (fun t => t.cycles) (cld_tia _ _ _ _ h)
  case dex => exact congrArg (fun t => t.cycles) (dex_tia _ _ _ _ h)
  case dey => exact congrArg (fun t => t.cycles) (dey_tia _ _ _ _ h)
  case eor => exact congrArg (fun t => t.cycles) (eor_tia _ _ _ _ h)
  case inx => exact congrArg (fun t => t.cycles) (inx_tia _ _ _ _ h)
  case iny => exact congrArg (fun t => t.cycles) (iny_tia _ _ _ _ h)
  case jmp => exact congrArg (fun t => t.cycles) (jmp_tia _ _ _ _ h)
  case jsr => exact jsr_cycles _ _ _ _ h
  case lda => exact congrArg (fun t => t.cycles) (lda_tia _ _ _ _ h)
  case ldx => exact congrArg (fun t => t.cycles) (ldx_tia _ _ _ _ h)
  case ldy => exact congrArg (fun t => t.cycles) (ldy_tia _ _ _ _ h)
  case lsr => exact lsr_cycles _ _ _ _ h
  case rol => exact rol_cycles _ _ _ _ h
  case ror => exact ror_cycles _ _ _ _ h
  case sbc => exact congrArg (fun t => t.cycles) (sbc_tia _ _ _ _ h)
  case sec => exact congrArg (fun t => t.cycles) (sec_tia _ _ _ _ h)
  case sed => exact congrArg (fun t => t.cycles) (sed_tia _ _ _ _ h)
  case sei => exact congrArg (fun t => t.cycles) (sei_tia _ _ _ _ h)
  case sta => exact sta_cycles _ _ _ _ h
  case stx => exact stx_cycles _ _ _ _ h
  case sty => exact sty_cycles _ _ _ _ h
  case tax => exact congrArg (fun t => t.cycles) (tax_tia _ _ _ _ h)
  case tay => exact congrArg (fun t => t.cycles) (tay_tia _ _ _ _ h)
  case tsx => exact congrArg (fun t => t.cycles) (tsx_tia _ _ _ _ h)
  case txa => exact congrArg (fun t => t.cycles) (txa_tia _ _ _ _ h)
  case txs => exact congrArg (fun t => t.cycles) (txs_tia _ _ _ _ h)
  case tya => exact congrArg (fun t => t.cycles) (tya_tia _ _ _ _ h)
  all_goals exact Option.noConfusion h

theorem step_cycles (p p' : InstructionProcedure) (b b' : Bus)
    (h : InstructionProcedure.step p b = some (p', b')) :
    b'.tia.cycles = b.tia.cycles := by
  simp only [InstructionProcedure.step] at h
  rw [Option.bind_eq_some] at h
  obtain ⟨⟨q1, c1⟩, hrun, h⟩ := h
  dsimp only at h
  split_ifs at h
  rw [← snd_eq_of_pair_eq _ _ _ (Option.some.inj h)]
  exact runInstr_cycles _ _ _ _ _ hrun

/-- `Cpu::cycle` never touches the TIA cycle counters: fetches and decodes
only move CPU state, and every instruction step preserves them. -/
theorem cpu_cycle_cycles (b b' : Bus) (h : Cpu.cycle b = some b') :
    b'.tia.cycles = b.tia.cycles := by
  cases hp : b.cpu.procedure with
  | some p0 =>
      rw [Cpu.cycle_of_proc b p0 hp] at h
      rw [Option.bind_eq_some] at h
      obtain ⟨⟨q1, c1⟩, hstep, h⟩ := h
      dsimp only at h
      split_ifs at h
      · rw [← Option.some.inj h]
        have hx := step_cycles _ _ _ _ hstep
        exact hx
      · rw [← Option.some.inj h]
        have hx := step_cycles _ _ _ _ hstep
        exact hx
  | none =>
      simp only [Cpu.cycle, hp, Option.bind_eq_bind, Option.some_bind] at h
      cases hq : b.cpu.prefetch with
      | some v =>
          simp only [hq, Option.some_bind] at h
          rw [Option.bind_eq_some] at h
          obtain ⟨pr, hdec, h⟩ := h
          try dsimp only at h
          rw [Option.bind_eq_some] at h
          obtain ⟨⟨q1, c1⟩, hstep, h⟩ := h
          try dsimp only at h
          split_ifs at h
          · rw [← Option.some.inj h]
            have hx := step_cycles _ _ _ _ hstep
            exact hx
          · rw [← Option.some.inj h]
            have hx := step_cycles _ _ _ _ hstep
            exact hx
      | none =>
          simp only [hq] at h
          rw [Option.bind_eq_some] at h
          obtain ⟨⟨op, b2⟩, hpre, h⟩ := h
          rw [Option.map_eq_some'] at hpre
          obtain ⟨⟨v0, b0⟩, hf, he⟩ := hpre
          try dsimp only at he
          try dsimp only at h
          rw [Option.bind_eq_some] at h
          obtain ⟨pr, hdec, h⟩ := h
          try dsimp only at h
          rw [Option.bind_eq_some] at h
          obtain ⟨⟨q1, c1⟩, hstep, h⟩ := h
          try dsimp only at h
          split_ifs at h
          · rw [← Option.some.inj h]
            have hx := step_cycles _ _ _ _ hstep
            refine hx.trans ?_
            rw [← snd_eq_of_pair_eq _ _ _ he]
            exact congrArg (fun t => t.cycles) (fetch_tia _ _ _ hf)
          · rw [← Option.some.inj h]
            have hx := step_cycles _ _ _ _ hstep
            refine hx.trans ?_
            rw [← snd_eq_of_pair_eq _ _ _ he]
            exact congrArg (fun t => t.cycles) (fetch_tia _ _ _ hf)


/-- `CycleCounter::osc_cycle` keeps the color clock in 0..=227 and the
scanline in 0..=261. -/
theorem osc_cycle_range (c : CycleCounter) (h1 : c.color_clock ≤ 227)
    (h2 : c.scanline ≤ 261) :
    (CycleCounter.osc_cycle c).color_clock ≤ 227 ∧
    (CycleCounter.osc_cycle c).scanline ≤ 261 := by
  simp only [CycleCounter.osc_cycle]
  split_ifs <;> refine ⟨?_, ?_⟩ <;> simp_all <;> omega

/-- Wrap behavior at the right edge: from color clock 227 the next tick
returns to 0 and the scanline advances, itself wrapping at 262. -/
theorem osc_cycle_wrap (c : CycleCounter) (hc : c.color_clock = 227) :
    (CycleCounter.osc_cycle c).color_clock = 0 ∧
    (CycleCounter.osc_cycle c).scanline
      = (if c.scanline + 1 = 262 then 0 else c.scanline + 1) := by
  simp only [CycleCounter.osc_cycle]
  split_ifs <;> refine ⟨?_, ?_⟩ <;> simp_all

/-- Away from the right edge the color clock just increments and the
scanline stays put. -/
theorem osc_cycle_no_wrap (c : CycleCounter) (hc : c.color_clock ≤ 226) :
    (CycleCounter.osc_cycle c).color_clock = c.color_clock + 1 ∧
    (CycleCounter.osc_cycle c).scanline = c.scanline := by
  simp only [CycleCounter.osc_cycle]
  split_ifs <;> refine ⟨?_, ?_⟩ <;> simp_all

/-- The C8 range invariant on a whole machine state. -/
def TiaRange (b : Bus) : Prop :=
  b.tia.cycles.color_clock ≤ 227 ∧ b.tia.cycles.scanline ≤ 261

/-- One whole `Tia::cycle` preserves the counter ranges: the CPU/PIA phase
never touches the counters, `osc_cycle` keeps them in range, and the
VSYNC frame reset only zeroes the scanline. -/
theorem tia_cycle_range (b b' : Bus) (h : Tia.cycle b = some b')
    (hr : TiaRange b) : TiaRange b' := by
  obtain ⟨h1, h2⟩ := hr
  have hob0 := osc_cycle_range b.tia.cycles h1 h2
  simp only [Tia.cycle, Option.bind_eq_bind, Option.some_bind] at h
  split_ifs at h
  · rw [Option.bind_eq_some] at h
    obtain ⟨pf, hpf, h⟩ := h
    try dsimp only at h
    rw [Option.bind_eq_some] at h
    obtain ⟨col, hcol, h⟩ := h
    try dsimp only at h
    rw [Option.bind_eq_some] at h
    obtain ⟨bc, hcpu, h⟩ := h
    try dsimp only at h
    rw [Option.bind_eq_some] at h
    obtain ⟨pq, hpia, h⟩ := h
    try dsimp only at h
    have hcc : bc.tia.cycles.color_clock ≤ 227 := by
      rw [cpu_cycle_cycles _ _ hcpu]
      exact h1
    have hsl : bc.tia.cycles.scanline ≤ 261 := by
      rw [cpu_cycle_cycles _ _ hcpu]
      exact h2
    have hob := osc_cycle_range bc.tia.cycles hcc hsl
    split_ifs at h <;> rw [← Option.some.inj h] <;>
      exact ⟨hob.1, by first | exact hob.2 | exact Nat.zero_le 261⟩
  · rw [Option.bind_eq_some] at h
    obtain ⟨pf, hpf, h⟩ := h
    try dsimp only at h
    rw [Option.bind_eq_some] at h
    obtain ⟨col, hcol, h⟩ := h
    try dsimp only at h
    split_ifs at h <;> rw [← Option.some.inj h] <;>
      exact ⟨hob0.1, by first | exact hob0.2 | exact Nat.zero_le 261⟩
  · rw [Option.bind_eq_some] at h
    obtain ⟨pf, hpf, h⟩ := h
    try dsimp only at h
    rw [Option.bind_eq_some] at h
    obtain ⟨col, hcol, h⟩ := h
    try dsimp only at h
    split_ifs at h <;> rw [← Option.some.inj h] <;>
      exact ⟨hob0.1, by first | exact hob0.2 | exact Nat.zero_le 261⟩
  · rw [Option.bind_eq_some] at h
    obtain ⟨bc, hcpu, h⟩ := h
    try dsimp only at h
    rw [Option.bind_eq_some] at h
    obtain ⟨pq, hpia, h⟩ := h
    try dsimp only at h
    have hcc : bc.tia.cycles.color_clock ≤ 227 := by
      rw [cpu_cycle_cycles _ _ hcpu]
      exact h1
    have hsl : bc.tia.cycles.scanline ≤ 261 := by
      rw [cpu_cycle_cycles _ _ hcpu]
      exact h2
    have hob := osc_cycle_range bc.tia.cycles hcc hsl
    split_ifs at h <;> rw [← Option.some.inj h] <;>
      exact ⟨hob.1, by first | exact hob.2 | exact Nat.zero_le 261⟩
  · rw [← Option.some.inj h]
    exact ⟨hob0.1, Nat.zero_le 261⟩
  · rw [← Option.some.inj h]
    exact ⟨hob0.1, hob0.2⟩
  · rw [← Option.some.inj h]
    exact ⟨hob0.1, Nat.zero_le 261⟩
  · rw [← Option.some.inj h]
    exact ⟨hob0.1, hob0.2⟩

/-- C8: after every oscillator tick the color clock stays in 0..=227 and
the scanline in 0..=261 — the color clock wraps to 0 on reaching 228
(advancing the scanline, which itself wraps at 262), every whole
`Tia::cycle` preserves the range invariant, and the default machine state
satisfies it. -/
theorem claim_C8_counter_ranges :
    (∀ c : CycleCounter, c.color_clock = 227 →
        ((CycleCounter.osc_cycle c).color_clock = 0 ∧
         (CycleCounter.osc_cycle c).scanline
           = (if c.scanline + 1 = 262 then 0 else c.scanline + 1)))
  ∧ (∀ c : CycleCounter, c.color_clock ≤ 226 →
        ((CycleCounter.osc_cycle c).color_clock = c.color_clock + 1 ∧
         (CycleCounter.osc_cycle c).scanline = c.scanline))
  ∧ (∀ b b' : Bus, Tia.cycle b = some b' → TiaRange b → TiaRange b')
  ∧ TiaRange Bus.default := by
  refine ⟨osc_cycle_wrap, osc_cycle_no_wrap, tia_cycle_range, ?_, ?_⟩
  · decide
  · decide

/-- The machine one tick after `c3busHigh` (a concrete in-range state used
to witness the C8 preservation statement). -/
def c8next : Bus :=
  ⟨⟨true, true, false, false, 0, 0, 0, 0, 0, 0, ⟨101, 2, 7, 51, 33, 0⟩, zbytes, 0⟩,
    cpuA0, Pia.default, loopRom⟩

/-- Witness discharging the hypotheses of C8 at concrete inputs: the wrap
case at color clock 227 on scanline 261, the no-wrap case at color clock
50, and range preservation across a concrete `Tia::cycle` tick. -/
theorem claim_C8_witness :
    ((CycleCounter.osc_cycle ⟨0, 0, 261, 227, 0, 0⟩).color_clock = 0 ∧
      (CycleCounter.osc_cycle ⟨0, 0, 261, 227, 0, 0⟩).scanline
        = (if (261 : Nat) + 1 = 262 then 0 else 261 + 1)) ∧
    ((CycleCounter.osc_cycle ⟨0, 0, 7, 50, 33, 0⟩).color_clock = 50 + 1 ∧
      (CycleCounter.osc_cycle ⟨0, 0, 7, 50, 33, 0⟩).scanline = 7) ∧
    TiaRange c8next :=
  ⟨claim_C8_counter_ranges.1 ⟨0, 0, 261, 227, 0, 0⟩ rfl,
   claim_C8_counter_ranges.2.1 ⟨0, 0, 7, 50, 33, 0⟩ (by decide),
   claim_C8_counter_ranges.2.2.1 c3busHigh c8next rfl ⟨by decide, by decide⟩⟩

end Rustari
